import Mathlib

/-!
# The slang compiler backend (`src/slang_backend.cpp`)

A shallow embedding of `slang::Backend`: the member functions
`CreateCodeGenPasses`, `Initialize`, `HandleTopLevelDecl`,
`HandleTranslationUnit` and the destructor become functions on an explicit
`Backend` state.  Calls into the collaborators (clang diagnostics, the clang
IR generator `mGen`, the LLVM pass managers, the target registry, the output
stream) are recorded, in program order, in the `trace` of the state; what the
collaborators answer is read from an `Env`.
-/

namespace slang

/-! ## Data model -/

/-- Modelled from the spec: the enumeration `SlangCompilerOutputTy` is declared
in `slang.hpp`, which is not part of the sources at hand.  The five enumerators
are the ones `HandleTranslationUnit` switches over (lines 253-286); the
`default:` label of that switch (line 287) is not reached by any of them. -/
inductive SlangCompilerOutputTy where
  | SlangCompilerOutput_Assembly
  | SlangCompilerOutput_Obj
  | SlangCompilerOutput_LL
  | SlangCompilerOutput_Bitcode
  | SlangCompilerOutput_Nothing
  deriving DecidableEq, Repr

/-- The two fields of `clang::CodeGenOptions` the backend reads. -/
structure CodeGenOptions where
  OptimizationLevel : Nat
  DisableFPElim : Bool
  deriving DecidableEq, Repr

/-- The two fields of `clang::TargetOptions` the backend reads. -/
structure TargetOptions where
  CPU : String
  Features : List String
  deriving DecidableEq, Repr

/-- An `llvm::TargetData`; only `getPointerSizeInBits()` is read (line 76). -/
structure TargetData where
  PointerSizeInBits : Nat
  deriving DecidableEq, Repr

/-- An `llvm::Function` of a module, as far as the backend looks at it:
its name and `isDeclaration()` (no body). -/
structure Function where
  name : String
  isDeclaration : Bool
  deriving DecidableEq, Repr

/-- An `llvm::MDNode` whose operands are `MDString`s, in operand order. -/
abbrev MDNode := List String

/-- An `llvm::NamedMDNode`: a named table of metadata nodes, in insertion order. -/
structure NamedMDNode where
  name : String
  operands : List MDNode
  deriving DecidableEq, Repr

/-- An `llvm::Module`: target triple, function list in module order and the
named metadata tables. -/
structure Module where
  targetTriple : String
  functions : List Function
  namedMetadata : List NamedMDNode
  deriving DecidableEq, Repr

/-- Modelled from the spec: `PragmaList` is declared in `slang_backend.hpp`
(not at hand); the spec describes it as the ordered list of (name, value) string
pairs collected during parsing.  Lines 216-223 iterate it from `begin()` to
`end()` and read `first` and `second` of each element. -/
abbrev PragmaList := List (String × String)

/-- A `clang::FunctionDecl`, as far as `HandleTopLevelDecl` looks at it. -/
structure FunctionDecl where
  name : String
  isThisDeclarationADefinition : Bool
  locStart : Nat
  deriving DecidableEq, Repr

/-- A `clang::Decl` of a declaration group: either a `FunctionDecl` (the
`dyn_cast` of line 175 succeeds) or any other kind of declaration (the
`dyn_cast` yields null), of which only the name is kept. -/
inductive Decl where
  | Function (FD : FunctionDecl)
  | Other (name : String)
  deriving DecidableEq, Repr

/-- A `clang::DeclGroupRef`: the declarations from `begin()` to `end()`. -/
abbrev DeclGroupRef := List Decl

/-- The diagnostics this file reports.
* `invalid_rs_name loc name` is the custom error of lines 178-183, with format
  "invalid function name prefix, "rs" is reserved: %0", reported at the
  location `loc` with `name` streamed in as argument 0;
* `err_fe_unable_to_create_target Error` is line 53;
* `err_fe_unable_to_interface_with_target` is line 124. -/
inductive Diag where
  | invalid_rs_name (loc : Nat) (name : String)
  | err_fe_unable_to_create_target (Error : String)
  | err_fe_unable_to_interface_with_target
  deriving DecidableEq, Repr

/-- An `llvm::Target` found by the target registry. -/
structure Target where
  name : String
  deriving DecidableEq, Repr

/-- The `llvm::TargetMachine` made by `createTargetMachine(Triple, FeaturesStr)`. -/
structure TargetMachine where
  target : Target
  Triple : String
  FeaturesStr : String
  deriving DecidableEq, Repr

/-- Values of `llvm::FloatABI::ABIType`. -/
inductive FloatABI where
  | Default | Soft | Hard
  deriving DecidableEq, Repr

/-- Values of `llvm::Reloc::Model`. -/
inductive Reloc where
  | Default | Static | PIC_ | DynamicNoPIC
  deriving DecidableEq, Repr

/-- Values of `llvm::CodeModel::Model`. -/
inductive CodeModel where
  | Default | Small | Kernel | Medium | Large
  deriving DecidableEq, Repr

/-- Values of `llvm::CodeGenOpt::Level`. -/
inductive CodeGenOptLevel where
  | None | Less | Default | Aggressive
  deriving DecidableEq, Repr

/-- Values of `llvm::TargetMachine::CodeGenFileType` used here. -/
inductive CodeGenFileType where
  | CGFT_AssemblyFile | CGFT_ObjectFile
  deriving DecidableEq, Repr

/-- The register allocator constructors of lines 108-110. -/
inductive RegAllocCtor where
  | createFastRegisterAllocator | createLinearScanRegisterAllocator
  deriving DecidableEq, Repr

/-- The scheduler constructor of line 103. -/
inductive SchedulerCtor where
  | createDefaultScheduler
  deriving DecidableEq, Repr

/-- A pass held by a pass manager: the `llvm::TargetData` copy added on line 43,
or the emission passes added by a successful `addPassesToEmitFile`
(lines 122-123). -/
inductive Pass where
  | TargetData (td : TargetData)
  | EmitFile (TM : TargetMachine) (CGFT : CodeGenFileType) (OptLevel : CodeGenOptLevel)
  deriving DecidableEq, Repr

/-- The process-wide LLVM settings that `CreateCodeGenPasses` assigns
(lines 57, 66, 67, 71, 77/82, 103, 108). -/
structure LLVMGlobals where
  NoFramePointerElim : Bool
  FloatABIType : FloatABI
  UseSoftFloat : Bool
  RelocationModel : Reloc
  CodeModel : CodeModel
  SchedulerDefault : Option SchedulerCtor
  RegAllocDefault : Option RegAllocCtor
  deriving DecidableEq, Repr

/-- One call into a collaborator, as it appears in the source. -/
inductive Event where
  /-- Call `mDiags.Report(...)` -/
  | Report (d : Diag)
  /-- Call `mGen->Initialize(Ctx)` -/
  | GenInitialize
  /-- Call `mGen->HandleTopLevelDecl(D)` -/
  | GenHandleTopLevelDecl (D : DeclGroupRef)
  /-- Call `mGen->HandleTranslationUnit(Ctx)` -/
  | GenHandleTranslationUnit
  /-- Call `mGen->ReleaseModule()` -/
  | GenReleaseModule
  /-- Call `mpModule->getOrInsertNamedMetadata(name)` -/
  | getOrInsertNamedMetadata (name : String)
  /-- Call `PragmaMetadata->addOperand(node)` -/
  | addOperand (node : MDNode)
  /-- Call `HandleTranslationUnitEx(Ctx)` -/
  | HandleTranslationUnitEx
  /-- Call `mPerFunctionPasses->doInitialization()` -/
  | PerFunctionDoInitialization
  /-- Call `mPerFunctionPasses->run(F)` -/
  | PerFunctionRun (F : Function)
  /-- Call `mPerFunctionPasses->doFinalization()` -/
  | PerFunctionDoFinalization
  /-- Call `mPerModulePasses->run(*mpModule)` -/
  | PerModuleRun
  /-- Call `new llvm::FunctionPassManager(mpModule)` of line 42 -/
  | NewCodeGenPasses
  /-- Call `llvm::TargetRegistry::lookupTarget(Triple, Error)` -/
  | lookupTarget (Triple : String)
  /-- Call `TargetInfo->createTargetMachine(Triple, FeaturesStr)` -/
  | createTargetMachine (TM : TargetMachine)
  /-- Call `TM->addPassesToEmitFile(*mCodeGenPasses, FormattedOutStream, CGFT, OptLevel)` -/
  | addPassesToEmitFile (TM : TargetMachine) (CGFT : CodeGenFileType)
      (OptLevel : CodeGenOptLevel)
  /-- Call `mCodeGenPasses->doInitialization()` -/
  | CodeGenDoInitialization
  /-- Call `mCodeGenPasses->run(F)` -/
  | CodeGenRun (F : Function)
  /-- Call `mCodeGenPasses->doFinalization()` -/
  | CodeGenDoFinalization
  /-- Call `LLEmitPM->run(*mpModule)`, the print-module pass writing to the stream -/
  | LLEmitRun (M : Module)
  /-- Call `BCEmitPM->run(*mpModule)`, the bitcode writer pass writing to the stream -/
  | BCEmitRun (M : Module)
  /-- Call `FormattedOutStream.flush()` -/
  | flush
  deriving DecidableEq, Repr

/-- The members of `slang::Backend` (constructor initialiser list, lines
139-154), followed by the two pieces of outside state its member functions
act on: the LLVM process-wide settings and the trace of collaborator calls.
A null pointer is `none`. -/
structure Backend where
  mCodeGenOpts : CodeGenOptions
  mTargetOpts : TargetOptions
  mOutputType : SlangCompilerOutputTy
  mpTargetData : Option TargetData
  mPerFunctionPasses : Option (List Pass)
  mPerModulePasses : Option (List Pass)
  mCodeGenPasses : Option (List Pass)
  mAllowRSPrefix : Bool
  mpModule : Option Module
  mPragmas : PragmaList
  llvm : LLVMGlobals
  trace : List Event
  deriving DecidableEq, Repr

/-- What the collaborators and the declarations outside `slang_backend.cpp`
answer during one translation unit.
* `PragmaMetadataName`, `TargetDescription`: the constants
  `Slang::PragmaMetadataName` and `Slang::TargetDescription` (declared in
  `slang.hpp`, not at hand), the latter already parsed into a `TargetData`;
* `GetModule`, `ReleaseModule`: the results of `mGen->GetModule()` and
  `mGen->ReleaseModule()` (null is `none`);
* `lookupTarget`: the target registry, with the error text on failure;
* `getString`: `llvm::SubtargetFeatures::getString()` after `setCPU` and the
  `AddFeature` calls of lines 89-95;
* `addPassesToEmitFile`: the result of `TM->addPassesToEmitFile`, `true`
  meaning failure as in LLVM;
* `HandleTranslationUnitEx`: what the virtual hook does to the module;
* `runModulePasses`: what `mPerModulePasses->run` does to the module. -/
structure Env where
  PragmaMetadataName : String
  TargetDescription : TargetData
  GetModule : Option Module
  ReleaseModule : Option Module
  lookupTarget : String → Except String Target
  getString : String → List String → String
  addPassesToEmitFile : TargetMachine → CodeGenFileType → CodeGenOptLevel → Bool
  HandleTranslationUnitEx : Module → Module
  runModulePasses : Module → Module

/-! ## Primitive steps -/

/-- Record one collaborator call. -/
def Backend.log (e : Event) (b : Backend) : Backend :=
  { b with trace := b.trace ++ [e] }

/-- Model of `llvm::StringRef::startswith`. -/
def startswith (s p : String) : Bool :=
  p.toList.isPrefixOf s.toList

/-! ## `Backend::HandleTopLevelDecl` (lines 170-190) -/

/-- The `for` loop of lines 174-185 over the declarations still to visit. -/
def checkRSPrefix : List Decl → Backend → Backend
  | [], b => b
  | Decl.Other _ :: rest, b => checkRSPrefix rest b
  | Decl.Function FD :: rest, b =>
    if !FD.isThisDeclarationADefinition then checkRSPrefix rest b
    else if startswith FD.name "rs" then
      checkRSPrefix rest (b.log (Event.Report (Diag.invalid_rs_name FD.locStart FD.name)))
    else checkRSPrefix rest b

/-- Member function `Backend::HandleTopLevelDecl`. -/
def HandleTopLevelDecl (D : DeclGroupRef) (b : Backend) : Backend :=
  let b := if !b.mAllowRSPrefix then checkRSPrefix D b else b
  b.log (Event.GenHandleTopLevelDecl D)

/-! ## The module's named metadata -/

/-- Model of `NamedMDNode::addOperand(node)` on the table called `name`: the node is
appended after the operands the table already holds. -/
def addOperandTo (name : String) (node : MDNode) : List NamedMDNode → List NamedMDNode
  | [] => []
  | t :: rest =>
    if t.name = name then { t with operands := t.operands ++ [node] } :: rest
    else t :: addOperandTo name node rest

/-- Model of `Module::getNamedMetadata(name)`: the table called `name`, if there is one. -/
def Module.getNamedMetadata (M : Module) (name : String) : Option NamedMDNode :=
  M.namedMetadata.find? (fun t => decide (t.name = name))

/-- Model of `Module::getOrInsertNamedMetadata(name)`: the module afterwards; a table
called `name` is created, empty, when there is none. -/
def Module.getOrInsertNamedMetadata (M : Module) (name : String) : Module :=
  match M.getNamedMetadata name with
  | some _ => M
  | none => { M with namedMetadata := M.namedMetadata ++ [{ name := name, operands := [] }] }

/-- The module after `addOperand(node)` on its table called `name`. -/
def Module.addOperand (M : Module) (name : String) (node : MDNode) : Module :=
  { M with namedMetadata := addOperandTo name node M.namedMetadata }

/-- The operands of the table called `name`; none when the table is absent. -/
def Module.operandsOf (M : Module) (name : String) : List MDNode :=
  match M.getNamedMetadata name with
  | some t => t.operands
  | none => []

/-! ## Construction, `Backend::Initialize` and the destructor -/

/-- The constructor `Backend::Backend` (lines 131-159): every pointer member starts
null; `llvm` and `trace` are the outside state at that moment. -/
def Backend.ctor (CodeGenOpts : CodeGenOptions) (TargetOpts : TargetOptions)
    (Pragmas : PragmaList) (OutputType : SlangCompilerOutputTy) (AllowRSPrefix : Bool)
    (llvm : LLVMGlobals) (trace : List Event) : Backend :=
  { mCodeGenOpts := CodeGenOpts
    mTargetOpts := TargetOpts
    mOutputType := OutputType
    mpTargetData := none
    mPerFunctionPasses := none
    mPerModulePasses := none
    mCodeGenPasses := none
    mAllowRSPrefix := AllowRSPrefix
    mpModule := none
    mPragmas := Pragmas
    llvm := llvm
    trace := trace }

/-- Member function `Backend::Initialize` (lines 161-168). -/
def Initialize (env : Env) (b : Backend) : Backend :=
  let b := b.log Event.GenInitialize
  let b := { b with mpModule := env.GetModule }
  { b with mpTargetData := some env.TargetDescription }

/-- What a `delete` of the destructor releases. -/
inductive Deleted where
  | Module (M : Module)
  | TargetData
  | Gen
  | PerFunctionPasses
  | PerModulePasses
  | CodeGenPasses
  deriving DecidableEq, Repr

/-- One `delete p`: nothing for a null pointer. -/
def deleteOf {α : Type} (p : Option α) (d : α → Deleted) : List Deleted :=
  match p with
  | some x => [d x]
  | none => []

/-- The destructor `Backend::~Backend` (lines 308-316): the objects released, in
the order of the `delete` statements.  `mGen` is never null after construction. -/
def Backend.dtor (b : Backend) : List Deleted :=
  deleteOf b.mpModule Deleted.Module
    ++ deleteOf b.mpTargetData (fun _ => Deleted.TargetData)
    ++ [Deleted.Gen]
    ++ deleteOf b.mPerFunctionPasses (fun _ => Deleted.PerFunctionPasses)
    ++ deleteOf b.mPerModulePasses (fun _ => Deleted.PerModulePasses)
    ++ deleteOf b.mCodeGenPasses (fun _ => Deleted.CodeGenPasses)

/-! ## `Backend::CreateCodeGenPasses` (lines 33-129) -/

/-- The code model of lines 76-82, from the pointer size in bits. -/
def codeModelFor (PointerSizeInBits : Nat) : CodeModel :=
  if PointerSizeInBits > 32 then CodeModel.Medium else CodeModel.Small

/-- The feature string of lines 85-98. -/
def featuresStr (env : Env) (TargetOpts : TargetOptions) : String :=
  if TargetOpts.CPU.length ≠ 0 ∨ TargetOpts.Features.length ≠ 0 then
    env.getString TargetOpts.CPU TargetOpts.Features
  else ""

/-- The register allocator of lines 108-110. -/
def regAllocFor (OptimizationLevel : Nat) : RegAllocCtor :=
  if OptimizationLevel = 0 then RegAllocCtor.createFastRegisterAllocator
  else RegAllocCtor.createLinearScanRegisterAllocator

/-- The local `OptLevel` of lines 112-116. -/
def optLevelFor (OptimizationLevel : Nat) : CodeGenOptLevel :=
  if OptimizationLevel = 0 then CodeGenOptLevel.None
  else if OptimizationLevel = 3 then CodeGenOptLevel.Aggressive
  else CodeGenOptLevel.Default

/-- The local `CGFT` of lines 118-121. -/
def fileTypeFor (OutputType : SlangCompilerOutputTy) : CodeGenFileType :=
  if OutputType = SlangCompilerOutputTy.SlangCompilerOutput_Obj then
    CodeGenFileType.CGFT_ObjectFile
  else CodeGenFileType.CGFT_AssemblyFile

/-- Member function `Backend::CreateCodeGenPasses`.  `M` and `TD` are the objects `mpModule` and
`mpTargetData` point at (the function dereferences both); the result is the
returned `bool` and the state afterwards.  `TM` is a local of the function, so
the target machine it creates shows up in the trace only. -/
def CreateCodeGenPasses (env : Env) (M : Module) (TD : TargetData) (b : Backend) :
    Bool × Backend :=
  if b.mOutputType ≠ SlangCompilerOutputTy.SlangCompilerOutput_Assembly ∧
      b.mOutputType ≠ SlangCompilerOutputTy.SlangCompilerOutput_Obj then
    (true, b)
  else
    match b.mCodeGenPasses with
    | some _ => (true, b)
    | none =>
      let b := b.log Event.NewCodeGenPasses
      let b := { b with mCodeGenPasses := some [Pass.TargetData TD] }
      let Triple := M.targetTriple
      let b := b.log (Event.lookupTarget Triple)
      match env.lookupTarget Triple with
      | Except.error Error =>
        (false, b.log (Event.Report (Diag.err_fe_unable_to_create_target Error)))
      | Except.ok TargetInfo =>
        let b := { b with llvm := { b.llvm with
                      NoFramePointerElim := b.mCodeGenOpts.DisableFPElim } }
        let b := { b with llvm := { b.llvm with FloatABIType := FloatABI.Hard } }
        let b := { b with llvm := { b.llvm with UseSoftFloat := false } }
        let b := { b with llvm := { b.llvm with RelocationModel := Reloc.Static } }
        let b := { b with llvm := { b.llvm with
                      CodeModel := codeModelFor TD.PointerSizeInBits } }
        let FeaturesStr := featuresStr env b.mTargetOpts
        let TM : TargetMachine :=
          { target := TargetInfo, Triple := Triple, FeaturesStr := FeaturesStr }
        let b := b.log (Event.createTargetMachine TM)
        let b := { b with llvm := { b.llvm with
                      SchedulerDefault := some SchedulerCtor.createDefaultScheduler } }
        let b := { b with llvm := { b.llvm with
                      RegAllocDefault := some (regAllocFor b.mCodeGenOpts.OptimizationLevel) } }
        let OptLevel := optLevelFor b.mCodeGenOpts.OptimizationLevel
        let CGFT := fileTypeFor b.mOutputType
        let b := b.log (Event.addPassesToEmitFile TM CGFT OptLevel)
        if env.addPassesToEmitFile TM CGFT OptLevel then
          (false, b.log (Event.Report Diag.err_fe_unable_to_interface_with_target))
        else
          let passes := [Pass.TargetData TD, Pass.EmitFile TM CGFT OptLevel]
          (true, { b with mCodeGenPasses := some passes })

/-! ## `Backend::HandleTranslationUnit` (lines 192-296) -/

/-- The loop of lines 216-227: one `addOperand` per pragma, name first and
value second. -/
def addPragmas (name : String) : PragmaList → Module × Backend → Module × Backend
  | [], s => s
  | I :: rest, (M, b) =>
    let Pragma : MDNode := [I.1, I.2]
    addPragmas name rest (M.addOperand name Pragma, b.log (Event.addOperand Pragma))

/-- Lines 212-228: the pragma metadata of the module `M` that `mpModule` points at. -/
def injectPragmas (env : Env) (M : Module) (b : Backend) : Module × Backend :=
  if !b.mPragmas.isEmpty then
    addPragmas env.PragmaMetadataName b.mPragmas
      (M.getOrInsertNamedMetadata env.PragmaMetadataName,
        b.log (Event.getOrInsertNamedMetadata env.PragmaMetadataName))
  else (M, b)

/-- Modelled from the spec: `Backend::CreateFunctionPasses` is defined in
`slang_backend.hpp`, not at hand.  The spec (4.4): the per-function pipeline is
"constructed unconditionally when the translation unit completes", lazily, so
an existing one is kept.  The passes it registers are not specified. -/
def CreateFunctionPasses (b : Backend) : Backend :=
  match b.mPerFunctionPasses with
  | some _ => b
  | none => { b with mPerFunctionPasses := some [] }

/-- Modelled from the spec: `Backend::CreateModulePasses` is defined in
`slang_backend.hpp`, not at hand.  The spec (4.4): the per-module pipeline is
"constructed unconditionally", lazily, so an existing one is kept.  The
passes it registers are not specified. -/
def CreateModulePasses (b : Backend) : Backend :=
  match b.mPerModulePasses with
  | some _ => b
  | none => { b with mPerModulePasses := some [] }

/-- The loops of lines 239-243 and 261-265 over the functions still to visit:
`run` is called on each function that is not a declaration. -/
def runOnDefinitions (run : Function → Event) : List Function → Backend → Backend
  | [], b => b
  | I :: rest, b =>
    if !I.isDeclaration then runOnDefinitions run rest (b.log (run I))
    else runOnDefinitions run rest b

/-- Lines 234-246: create and run the per-function passes on the module `M`. -/
def runPerFunctionPasses (M : Module) (b : Backend) : Backend :=
  let b := CreateFunctionPasses b
  match b.mPerFunctionPasses with
  | some _ =>
    let b := b.log Event.PerFunctionDoInitialization
    let b := runOnDefinitions Event.PerFunctionRun M.functions b
    b.log Event.PerFunctionDoFinalization
  | none => b

/-- Lines 248-251: create and run the module passes on the module `M`. -/
def runPerModulePasses (env : Env) (M : Module) (b : Backend) : Module × Backend :=
  let b := CreateModulePasses b
  match b.mPerModulePasses with
  | some _ => (env.runModulePasses M, b.log Event.PerModuleRun)
  | none => (M, b)

/-- The `switch` of lines 253-291 on the module `M`.  The second component tells
how the case was left: `true` through a `return` (lines 257 and 284), `false`
through `break`. -/
def outputSwitch (env : Env) (M : Module) (TD : TargetData) (b : Backend) :
    Backend × Bool :=
  match b.mOutputType with
  | SlangCompilerOutputTy.SlangCompilerOutput_Assembly
  | SlangCompilerOutputTy.SlangCompilerOutput_Obj =>
    let r := CreateCodeGenPasses env M TD b
    if !r.1 then (r.2, true)
    else
      let b := r.2.log Event.CodeGenDoInitialization
      let b := runOnDefinitions Event.CodeGenRun M.functions b
      (b.log Event.CodeGenDoFinalization, false)
  | SlangCompilerOutputTy.SlangCompilerOutput_LL => (b.log (Event.LLEmitRun M), false)
  | SlangCompilerOutputTy.SlangCompilerOutput_Bitcode => (b.log (Event.BCEmitRun M), false)
  | SlangCompilerOutputTy.SlangCompilerOutput_Nothing => (b, true)

/-- Member function `Backend::HandleTranslationUnit`.  `mpModule` and the released module `M` are
the same object (the assertion of line 210), so the member is kept equal to the
module as the steps change it. -/
def HandleTranslationUnit (env : Env) (b : Backend) : Backend :=
  let b := b.log Event.GenHandleTranslationUnit
  match b.mpModule, b.mpTargetData with
  | some _, some TD =>
    let b := b.log Event.GenReleaseModule
    match env.ReleaseModule with
    | none => { b with mpModule := none }
    | some M =>
      let s := injectPragmas env M b
      let M := env.HandleTranslationUnitEx s.1
      let b := s.2.log Event.HandleTranslationUnitEx
      let b := runPerFunctionPasses M b
      let s := runPerModulePasses env M b
      let M := s.1
      let b := { s.2 with mpModule := some M }
      let r := outputSwitch env M TD b
      if r.2 then r.1 else r.1.log Event.flush
  | _, _ => b

/-! ## Vocabulary of the properties -/

/-- The collaborator calls made between the state `b` and the later state `b'`. -/
def newEvents (b b' : Backend) : List Event :=
  b'.trace.drop b.trace.length

/-- The diagnostics reported in a stretch of the trace, in order. -/
def diagsOf : List Event → List Diag
  | [] => []
  | Event.Report d :: es => d :: diagsOf es
  | _ :: es => diagsOf es

/-- The declaration is a function declaration, is a definition, and its name
starts with "rs". -/
def Decl.isReservedDefinition : Decl → Bool
  | Decl.Function FD => FD.isThisDeclarationADefinition && startswith FD.name "rs"
  | Decl.Other _ => false

/-- The declaration is a function declaration that is a definition. -/
def Decl.isFunctionDefinition : Decl → Bool
  | Decl.Function FD => FD.isThisDeclarationADefinition
  | Decl.Other _ => false

/-- The name of the declaration itself. -/
def Decl.name : Decl → String
  | Decl.Function FD => FD.name
  | Decl.Other name => name

/-- The start location of the declaration (none is kept for a non-function). -/
def Decl.locStart : Decl → Nat
  | Decl.Function FD => FD.locStart
  | Decl.Other _ => 0

/-- The errors the naming policy asks for: one per reserved definition of the
group, in group order, each with the name of its declaration. -/
def reservedNameErrors (D : DeclGroupRef) : List Diag :=
  (D.filter Decl.isReservedDefinition).map (fun d => Diag.invalid_rs_name d.locStart d.name)

/-- Record several collaborator calls at once. -/
def Backend.logs (es : List Event) (b : Backend) : Backend :=
  { b with trace := b.trace ++ es }

/-- The functions of a module that have a definition, in module order. -/
def Module.definitions (M : Module) : List Function :=
  M.functions.filter (fun F => !F.isDeclaration)

/-- The metadata node of one pragma: the name first, the value second. -/
def pragmaNode (I : String × String) : MDNode := [I.1, I.2]

/-- The calls of the pragma injection for the pragma list `P`. -/
def pragmaEvents (name : String) (P : PragmaList) : List Event :=
  if P.isEmpty then []
  else Event.getOrInsertNamedMetadata name :: P.map (fun I => Event.addOperand (pragmaNode I))

/-- The module handed to the per-function and per-module pipelines: the released
module `M` after the pragma injection and the hook. -/
def moduleAfterHook (env : Env) (b : Backend) (M : Module) : Module :=
  env.HandleTranslationUnitEx (injectPragmas env M b).1

/-- The module the output `switch` works on: the module after the module passes. -/
def moduleAtSwitch (env : Env) (b : Backend) (M : Module) : Module :=
  env.runModulePasses (moduleAfterHook env b M)

/-- The calls `HandleTranslationUnit` makes before its output `switch`, when the
generator releases the module `M`. -/
def preSwitchEvents (env : Env) (b : Backend) (M : Module) : List Event :=
  [Event.GenHandleTranslationUnit, Event.GenReleaseModule]
    ++ pragmaEvents env.PragmaMetadataName b.mPragmas
    ++ [Event.HandleTranslationUnitEx, Event.PerFunctionDoInitialization]
    ++ (moduleAfterHook env b M).definitions.map Event.PerFunctionRun
    ++ [Event.PerFunctionDoFinalization, Event.PerModuleRun]

/-- The state in which `HandleTranslationUnit` reaches its output `switch`, when
the generator releases the module `M`. -/
def stateAtSwitch (env : Env) (b : Backend) (M : Module) : Backend :=
  { b with
    trace := b.trace ++ preSwitchEvents env b M
    mPerFunctionPasses := some (b.mPerFunctionPasses.getD [])
    mPerModulePasses := some (b.mPerModulePasses.getD [])
    mpModule := some (moduleAtSwitch env b M) }

/-- The target registry knows the triple. -/
def resolves (env : Env) (Triple : String) : Bool :=
  match env.lookupTarget Triple with
  | Except.ok _ => true
  | Except.error _ => false

/-- The output format asks for machine code: assembly or object. -/
def SlangCompilerOutputTy.isCodeGen : SlangCompilerOutputTy → Bool
  | SlangCompilerOutputTy.SlangCompilerOutput_Assembly => true
  | SlangCompilerOutputTy.SlangCompilerOutput_Obj => true
  | _ => false

/-- The call flushes the output stream. -/
def Event.isFlush : Event → Bool
  | Event.flush => true
  | _ => false

/-- The call runs the IR-text emission. -/
def Event.isLLEmit : Event → Bool
  | Event.LLEmitRun _ => true
  | _ => false

/-- The call runs the bitcode emission. -/
def Event.isBCEmit : Event → Bool
  | Event.BCEmitRun _ => true
  | _ => false

/-- The call allocates the codegen pipeline object. -/
def Event.isNewCodeGenPasses : Event → Bool
  | Event.NewCodeGenPasses => true
  | _ => false

/-- The call creates a target machine. -/
def Event.isCreateTargetMachine : Event → Bool
  | Event.createTargetMachine _ => true
  | _ => false

/-- The call initialises, runs or finalises the codegen pipeline. -/
def Event.isCodeGenStep : Event → Bool
  | Event.CodeGenDoInitialization => true
  | Event.CodeGenRun _ => true
  | Event.CodeGenDoFinalization => true
  | _ => false

/-- The call belongs to the construction or use of the codegen pipeline, that is
to `CreateCodeGenPasses` past its format guard or to lines 259-267. -/
def Event.isCodeGen : Event → Bool
  | Event.NewCodeGenPasses => true
  | Event.lookupTarget _ => true
  | Event.createTargetMachine _ => true
  | Event.addPassesToEmitFile _ _ _ => true
  | Event.Report (Diag.err_fe_unable_to_create_target _) => true
  | Event.Report Diag.err_fe_unable_to_interface_with_target => true
  | e => e.isCodeGenStep

/-- The call is a `run` of the per-function, per-module or codegen pipeline. -/
def Event.isPipelineRun : Event → Bool
  | Event.PerFunctionRun _ => true
  | Event.PerModuleRun => true
  | Event.CodeGenRun _ => true
  | _ => false

/-- The call can write to the output stream: the codegen pipeline (which was
populated with the stream) and the two module emitters. -/
def Event.isWrite : Event → Bool
  | Event.LLEmitRun _ => true
  | Event.BCEmitRun _ => true
  | e => e.isCodeGenStep

/-- The call belongs to the pragma injection. -/
def Event.isPragmaInjection : Event → Bool
  | Event.getOrInsertNamedMetadata _ => true
  | Event.addOperand _ => true
  | _ => false

/-- The call is one of the initialise, run and finalise calls of a pipeline. -/
def Event.isPipelineStep : Event → Bool
  | Event.PerFunctionDoInitialization => true
  | Event.PerFunctionRun _ => true
  | Event.PerFunctionDoFinalization => true
  | Event.PerModuleRun => true
  | e => e.isCodeGenStep

/-- The module after the pragma injection, as a function of the pragma list. -/
def injectedModule (name : String) (P : PragmaList) (M : Module) : Module :=
  if P.isEmpty then M
  else P.foldl (fun M I => M.addOperand name (pragmaNode I)) (M.getOrInsertNamedMetadata name)

/-- The target machine `CreateCodeGenPasses` creates for the target `T`. -/
def targetMachineFor (env : Env) (b : Backend) (M : Module) (T : Target) : TargetMachine :=
  { target := T, Triple := M.targetTriple, FeaturesStr := featuresStr env b.mTargetOpts }

/-- The LLVM settings after lines 57-110 of `CreateCodeGenPasses`. -/
def configuredLLVM (b : Backend) (TD : TargetData) : LLVMGlobals :=
  { NoFramePointerElim := b.mCodeGenOpts.DisableFPElim
    FloatABIType := FloatABI.Hard
    UseSoftFloat := false
    RelocationModel := Reloc.Static
    CodeModel := codeModelFor TD.PointerSizeInBits
    SchedulerDefault := some SchedulerCtor.createDefaultScheduler
    RegAllocDefault := some (regAllocFor b.mCodeGenOpts.OptimizationLevel) }

/-- The calls of `CreateCodeGenPasses` up to and including `addPassesToEmitFile`,
when the target `T` is found. -/
def configureEvents (env : Env) (b : Backend) (M : Module) (T : Target) : List Event :=
  [Event.NewCodeGenPasses, Event.lookupTarget M.targetTriple,
    Event.createTargetMachine (targetMachineFor env b M T),
    Event.addPassesToEmitFile (targetMachineFor env b M T) (fileTypeFor b.mOutputType)
      (optLevelFor b.mCodeGenOpts.OptimizationLevel)]

/-- The optimisation levels handed to `addPassesToEmitFile` in a stretch of the
trace. -/
def passedOptLevels : List Event → List CodeGenOptLevel
  | [] => []
  | Event.addPassesToEmitFile _ _ OptLevel :: es => OptLevel :: passedOptLevels es
  | _ :: es => passedOptLevels es

/-- The file types handed to `addPassesToEmitFile` in a stretch of the trace. -/
def passedFileTypes : List Event → List CodeGenFileType
  | [] => []
  | Event.addPassesToEmitFile _ CGFT _ :: es => CGFT :: passedFileTypes es
  | _ :: es => passedFileTypes es

/-- The call is a `run` of the per-function pipeline. -/
def Event.isPerFunctionRun : Event → Bool
  | Event.PerFunctionRun _ => true
  | _ => false

/-- The call is a `run` of the per-module pipeline. -/
def Event.isPerModuleRun : Event → Bool
  | Event.PerModuleRun => true
  | _ => false

/-- The call is a `run` of the codegen pipeline. -/
def Event.isCodeGenRun : Event → Bool
  | Event.CodeGenRun _ => true
  | _ => false

/-- The call is one `CreateCodeGenPasses` makes: allocation of the pipeline,
target lookup, target machine creation, pipeline population, or a diagnostic. -/
def Event.isSetup : Event → Bool
  | Event.NewCodeGenPasses => true
  | Event.lookupTarget _ => true
  | Event.createTargetMachine _ => true
  | Event.addPassesToEmitFile _ _ _ => true
  | Event.Report _ => true
  | _ => false

/-- The call is one `HandleTranslationUnit` makes before its output `switch`. -/
def Event.isPreparation : Event → Bool
  | Event.GenHandleTranslationUnit => true
  | Event.GenReleaseModule => true
  | Event.getOrInsertNamedMetadata _ => true
  | Event.addOperand _ => true
  | Event.HandleTranslationUnitEx => true
  | Event.PerFunctionDoInitialization => true
  | Event.PerFunctionRun _ => true
  | Event.PerFunctionDoFinalization => true
  | Event.PerModuleRun => true
  | _ => false

/-- The calls of one run of `HandleTranslationUnit` from the state `b`. -/
def unitEvents (env : Env) (b : Backend) : List Event :=
  newEvents b (HandleTranslationUnit env b)

/-! ## Sample inputs -/

/-- A module with the declaration `rsGetDt` and the definitions `foo`, `root`. -/
def sampleModule : Module :=
  { targetTriple := "armv7-none-linux-gnueabi"
    functions := [{ name := "rsGetDt", isDeclaration := true },
                  { name := "foo", isDeclaration := false },
                  { name := "root", isDeclaration := false }]
    namedMetadata := [] }

/-- An environment whose registry knows one triple and in which nothing fails. -/
def sampleEnv : Env :=
  { PragmaMetadataName := "#pragma"
    TargetDescription := { PointerSizeInBits := 32 }
    GetModule := some sampleModule
    ReleaseModule := some sampleModule
    lookupTarget := fun Triple =>
      if Triple = "armv7-none-linux-gnueabi" then Except.ok { name := "arm" }
      else Except.error "no target for this triple"
    getString := fun CPU Features => String.intercalate "," (CPU :: Features)
    addPassesToEmitFile := fun _ _ _ => false
    HandleTranslationUnitEx := fun M => M
    runModulePasses := fun M => M }

/-- The LLVM settings before the backend touches them. -/
def sampleGlobals : LLVMGlobals :=
  { NoFramePointerElim := false
    FloatABIType := FloatABI.Default
    UseSoftFloat := false
    RelocationModel := Reloc.Default
    CodeModel := CodeModel.Default
    SchedulerDefault := none
    RegAllocDefault := none }

/-- A backend right after construction and `Initialize` in the environment `env`,
for the output format `OutputType`, the optimisation level `lvl` and the pragma
list `Pragmas`. -/
def sampleBackendIn (env : Env) (OutputType : SlangCompilerOutputTy) (lvl : Nat)
    (Pragmas : PragmaList) : Backend :=
  Initialize env
    (Backend.ctor { OptimizationLevel := lvl, DisableFPElim := false }
      { CPU := "cortex-a8", Features := ["neon"] } Pragmas OutputType false sampleGlobals [])

/-- The sample backend in the sample environment. -/
def sampleBackend (OutputType : SlangCompilerOutputTy) (lvl : Nat) (Pragmas : PragmaList) :
    Backend :=
  sampleBackendIn sampleEnv OutputType lvl Pragmas

/-- A module without any function. -/
def emptyModule : Module :=
  { targetTriple := "armv7-none-linux-gnueabi", functions := [], namedMetadata := [] }

/-- The sample environment, the generator releasing the module `M`. -/
def sampleEnvWith (M : Option Module) : Env :=
  { sampleEnv with GetModule := M, ReleaseModule := M }

/-- The environment of an empty translation unit. -/
def emptyEnv : Env := sampleEnvWith (some emptyModule)

/-- A module for a triple the sample registry does not know. -/
def strangeModule : Module :=
  { sampleModule with targetTriple := "pdp11-unknown-none" }

/-- The sample environment with the module of the unknown triple. -/
def strangeEnv : Env := sampleEnvWith (some strangeModule)

/-- A module whose only function is the definition `foo`. -/
def fooModule : Module :=
  { targetTriple := "armv7-none-linux-gnueabi"
    functions := [{ name := "foo", isDeclaration := false }]
    namedMetadata := [] }

/-- The sample environment with the module `fooModule`. -/
def fooEnv : Env := sampleEnvWith (some fooModule)

/-- The environment of `fooEnv`, but with a target machine that cannot populate
the codegen pipeline. -/
def failingEnv : Env :=
  { fooEnv with addPassesToEmitFile := fun _ _ _ => true }

/-! ## Lemmas on the primitive steps -/

@[simp]
theorem log_trace (e : Event) (b : Backend) : (b.log e).trace = b.trace ++ [e] := rfl

@[simp]
theorem log_mOutputType (e : Event) (b : Backend) : (b.log e).mOutputType = b.mOutputType := rfl

@[simp]
theorem log_mpModule (e : Event) (b : Backend) : (b.log e).mpModule = b.mpModule := rfl

@[simp]
theorem log_mpTargetData (e : Event) (b : Backend) :
    (b.log e).mpTargetData = b.mpTargetData := rfl

@[simp]
theorem log_mPerFunctionPasses (e : Event) (b : Backend) :
    (b.log e).mPerFunctionPasses = b.mPerFunctionPasses := rfl

@[simp]
theorem log_mPerModulePasses (e : Event) (b : Backend) :
    (b.log e).mPerModulePasses = b.mPerModulePasses := rfl

@[simp]
theorem log_mCodeGenPasses (e : Event) (b : Backend) :
    (b.log e).mCodeGenPasses = b.mCodeGenPasses := rfl

@[simp]
theorem log_mPragmas (e : Event) (b : Backend) : (b.log e).mPragmas = b.mPragmas := rfl

@[simp]
theorem log_mCodeGenOpts (e : Event) (b : Backend) :
    (b.log e).mCodeGenOpts = b.mCodeGenOpts := rfl

@[simp]
theorem log_mTargetOpts (e : Event) (b : Backend) :
    (b.log e).mTargetOpts = b.mTargetOpts := rfl

@[simp]
theorem log_llvm (e : Event) (b : Backend) : (b.log e).llvm = b.llvm := rfl

theorem newEvents_of_append (b b' : Backend) (es : List Event)
    (h : b'.trace = b.trace ++ es) : newEvents b b' = es := by
  simp [newEvents, h]

@[simp]
theorem diagsOf_append (xs ys : List Event) : diagsOf (xs ++ ys) = diagsOf xs ++ diagsOf ys := by
  induction xs with
  | nil => rfl
  | cons e es ih => cases e <;> simp [diagsOf, ih]

@[simp]
theorem diagsOf_map_Report (ds : List Diag) : diagsOf (ds.map Event.Report) = ds := by
  induction ds with
  | nil => rfl
  | cons d ds ih => simp [diagsOf, ih]

/-- The loop of `HandleTopLevelDecl` reports the errors of the naming policy and
nothing else. -/
theorem checkRSPrefix_trace (D : List Decl) (b : Backend) :
    (checkRSPrefix D b).trace = b.trace ++ (reservedNameErrors D).map Event.Report := by
  induction D generalizing b with
  | nil => simp [checkRSPrefix, reservedNameErrors]
  | cons d rest ih =>
    cases d with
    | Other n =>
      simpa [checkRSPrefix, reservedNameErrors, Decl.isReservedDefinition] using ih b
    | Function FD =>
      by_cases hdef : FD.isThisDeclarationADefinition = true
      · by_cases hrs : startswith FD.name "rs" = true
        · simp [checkRSPrefix, hdef, hrs, ih, reservedNameErrors, Decl.isReservedDefinition,
            Decl.name, Decl.locStart]
        · simpa [checkRSPrefix, hdef, hrs, reservedNameErrors, Decl.isReservedDefinition]
            using ih b
      · simpa [checkRSPrefix, hdef, reservedNameErrors, Decl.isReservedDefinition] using ih b

theorem reservedNameErrors_eq_nil (D : DeclGroupRef)
    (h : ∀ d ∈ D, d.isFunctionDefinition = false) : reservedNameErrors D = [] := by
  unfold reservedNameErrors
  rw [List.map_eq_nil_iff, List.filter_eq_nil_iff]
  intro d hd
  have := h d hd
  cases d with
  | Other n => simp [Decl.isReservedDefinition]
  | Function FD =>
    simp only [Decl.isFunctionDefinition] at this
    simp [Decl.isReservedDefinition, this]

/-! ## C1: the naming policy check -/

/-- C1. For every declaration group `D` handed to `HandleTopLevelDecl`: with the
reserved prefix disallowed the diagnostics reported are exactly one error per
declaration of `D` that is a function declaration, a definition and has a name
starting with "rs", in group order and carrying the name of that declaration;
a group holding only forward declarations and non-function declarations is
reported nothing, whatever the names; with the reserved prefix allowed nothing
is reported for any group. In every case the group is then forwarded to the IR
generator. -/
theorem C1_HandleTopLevelDecl_reports (D : DeclGroupRef) (b : Backend) :
    (b.mAllowRSPrefix = false →
        diagsOf (newEvents b (HandleTopLevelDecl D b))
          = (D.filter Decl.isReservedDefinition).map
              (fun d => Diag.invalid_rs_name d.locStart d.name)) ∧
    (b.mAllowRSPrefix = false → (∀ d ∈ D, d.isFunctionDefinition = false) →
        diagsOf (newEvents b (HandleTopLevelDecl D b)) = []) ∧
    (b.mAllowRSPrefix = true →
        diagsOf (newEvents b (HandleTopLevelDecl D b)) = []) ∧
    (newEvents b (HandleTopLevelDecl D b)).getLast? = some (Event.GenHandleTopLevelDecl D) := by
  have key : newEvents b (HandleTopLevelDecl D b)
      = (if b.mAllowRSPrefix then [] else (reservedNameErrors D).map Event.Report)
          ++ [Event.GenHandleTopLevelDecl D] := by
    apply newEvents_of_append
    cases hA : b.mAllowRSPrefix <;> simp [HandleTopLevelDecl, hA, checkRSPrefix_trace]
  refine ⟨?_, ?_, ?_, ?_⟩
  · intro hA
    have : diagsOf (newEvents b (HandleTopLevelDecl D b)) = reservedNameErrors D := by
      simp [key, hA, diagsOf]
    exact this
  · intro hA hD
    simp [key, hA, diagsOf, reservedNameErrors_eq_nil D hD]
  · intro hA
    simp [key, hA, diagsOf]
  · simp [key]

/-! ## Lemmas on `HandleTranslationUnit` -/

@[simp]
theorem logs_trace (es : List Event) (b : Backend) : (b.logs es).trace = b.trace ++ es := rfl

theorem runOnDefinitions_eq (run : Function → Event) (fs : List Function) (b : Backend) :
    runOnDefinitions run fs b
      = b.logs ((fs.filter (fun F => !F.isDeclaration)).map run) := by
  induction fs generalizing b with
  | nil => simp [runOnDefinitions, Backend.logs]
  | cons F rest ih =>
    cases hF : F.isDeclaration <;>
      simp [runOnDefinitions, hF, ih, Backend.logs, Backend.log]

theorem addPragmas_snd (name : String) (P : PragmaList) (M : Module) (b : Backend) :
    (addPragmas name P (M, b)).2 = b.logs (P.map (fun I => Event.addOperand (pragmaNode I))) := by
  induction P generalizing M b with
  | nil => simp [addPragmas, Backend.logs]
  | cons I rest ih => simp [addPragmas, ih, Backend.logs, Backend.log, pragmaNode]

theorem addPragmas_fst (name : String) (P : PragmaList) (M : Module) (b : Backend) :
    (addPragmas name P (M, b)).1
      = P.foldl (fun M I => M.addOperand name (pragmaNode I)) M := by
  induction P generalizing M b with
  | nil => simp [addPragmas]
  | cons I rest ih => simp [addPragmas, ih, pragmaNode]

theorem injectPragmas_fst (env : Env) (M : Module) (b : Backend) :
    (injectPragmas env M b).1 = injectedModule env.PragmaMetadataName b.mPragmas M := by
  by_cases hP : b.mPragmas.isEmpty = true
  · simp [injectPragmas, hP, injectedModule]
  · simp [injectPragmas, hP, injectedModule, addPragmas_fst]

theorem injectPragmas_snd (env : Env) (M : Module) (b : Backend) :
    (injectPragmas env M b).2 = b.logs (pragmaEvents env.PragmaMetadataName b.mPragmas) := by
  by_cases hP : b.mPragmas.isEmpty = true
  · simp [injectPragmas, hP, pragmaEvents, Backend.logs]
  · simp [injectPragmas, hP, pragmaEvents, addPragmas_snd, Backend.logs, Backend.log]

theorem runPerFunctionPasses_eq (M : Module) (b : Backend) :
    runPerFunctionPasses M b
      = { b.logs ([Event.PerFunctionDoInitialization]
                    ++ M.definitions.map Event.PerFunctionRun
                    ++ [Event.PerFunctionDoFinalization]) with
          mPerFunctionPasses := some (b.mPerFunctionPasses.getD []) } := by
  cases h : b.mPerFunctionPasses <;>
    simp [runPerFunctionPasses, CreateFunctionPasses, h, runOnDefinitions_eq, Backend.logs,
      Backend.log, Module.definitions]

theorem runPerModulePasses_eq (env : Env) (M : Module) (b : Backend) :
    runPerModulePasses env M b
      = (env.runModulePasses M,
          { b.logs [Event.PerModuleRun] with
            mPerModulePasses := some (b.mPerModulePasses.getD []) }) := by
  cases h : b.mPerModulePasses <;>
    simp [runPerModulePasses, CreateModulePasses, h, Backend.logs, Backend.log]

/-- The run of `HandleTranslationUnit` up to its output `switch`. -/
theorem HandleTranslationUnit_eq (env : Env) (b : Backend) (M0 M : Module) (TD : TargetData)
    (hM : b.mpModule = some M0) (hTD : b.mpTargetData = some TD)
    (hRel : env.ReleaseModule = some M) :
    HandleTranslationUnit env b
      = if (outputSwitch env (moduleAtSwitch env b M) TD (stateAtSwitch env b M)).2 then
          (outputSwitch env (moduleAtSwitch env b M) TD (stateAtSwitch env b M)).1
        else
          (outputSwitch env (moduleAtSwitch env b M) TD (stateAtSwitch env b M)).1.log
            Event.flush := by
  simp [HandleTranslationUnit, hM, hTD, hRel, runPerModulePasses_eq, runPerFunctionPasses_eq,
    injectPragmas_snd, injectPragmas_fst, stateAtSwitch, moduleAtSwitch, moduleAfterHook,
    preSwitchEvents, Backend.logs, Backend.log]

/-! ## Lemmas on `CreateCodeGenPasses` -/

theorem CreateCodeGenPasses_guard (env : Env) (M : Module) (TD : TargetData) (b : Backend)
    (hf : b.mOutputType.isCodeGen = false) : CreateCodeGenPasses env M TD b = (true, b) := by
  cases hO : b.mOutputType <;> simp_all [CreateCodeGenPasses, SlangCompilerOutputTy.isCodeGen]

theorem CreateCodeGenPasses_existing (env : Env) (M : Module) (TD : TargetData) (b : Backend)
    (ps : List Pass) (hN : b.mCodeGenPasses = some ps) :
    CreateCodeGenPasses env M TD b = (true, b) := by
  unfold CreateCodeGenPasses
  split
  · rfl
  · simp [hN]

theorem CreateCodeGenPasses_error (env : Env) (M : Module) (TD : TargetData) (b : Backend)
    (Error : String) (hf : b.mOutputType.isCodeGen = true) (hN : b.mCodeGenPasses = none)
    (hT : env.lookupTarget M.targetTriple = Except.error Error) :
    CreateCodeGenPasses env M TD b
      = (false, { b with
                  mCodeGenPasses := some [Pass.TargetData TD]
                  trace := b.trace ++ [Event.NewCodeGenPasses, Event.lookupTarget M.targetTriple,
                    Event.Report (Diag.err_fe_unable_to_create_target Error)] }) := by
  cases hO : b.mOutputType <;>
    simp_all [CreateCodeGenPasses, SlangCompilerOutputTy.isCodeGen, Backend.log]

theorem CreateCodeGenPasses_ok (env : Env) (M : Module) (TD : TargetData) (b : Backend)
    (T : Target) (hf : b.mOutputType.isCodeGen = true) (hN : b.mCodeGenPasses = none)
    (hT : env.lookupTarget M.targetTriple = Except.ok T) :
    CreateCodeGenPasses env M TD b
      = if env.addPassesToEmitFile (targetMachineFor env b M T) (fileTypeFor b.mOutputType)
            (optLevelFor b.mCodeGenOpts.OptimizationLevel) then
          (false, { b with
                    llvm := configuredLLVM b TD
                    mCodeGenPasses := some [Pass.TargetData TD]
                    trace := b.trace ++ configureEvents env b M T
                      ++ [Event.Report Diag.err_fe_unable_to_interface_with_target] })
        else
          (true, { b with
                   llvm := configuredLLVM b TD
                   mCodeGenPasses := some [Pass.TargetData TD,
                     Pass.EmitFile (targetMachineFor env b M T) (fileTypeFor b.mOutputType)
                       (optLevelFor b.mCodeGenOpts.OptimizationLevel)]
                   trace := b.trace ++ configureEvents env b M T }) := by
  cases hO : b.mOutputType <;>
    simp_all [CreateCodeGenPasses, SlangCompilerOutputTy.isCodeGen, Backend.log,
      targetMachineFor, configuredLLVM, configureEvents]

/-! ## The output `switch`, case by case -/

theorem HandleTranslationUnit_LL (env : Env) (b : Backend) (M0 M : Module) (TD : TargetData)
    (hM : b.mpModule = some M0) (hTD : b.mpTargetData = some TD)
    (hRel : env.ReleaseModule = some M)
    (hf : b.mOutputType = SlangCompilerOutputTy.SlangCompilerOutput_LL) :
    HandleTranslationUnit env b
      = (stateAtSwitch env b M).logs [Event.LLEmitRun (moduleAtSwitch env b M), Event.flush] := by
  rw [HandleTranslationUnit_eq env b M0 M TD hM hTD hRel]
  have : (stateAtSwitch env b M).mOutputType = SlangCompilerOutputTy.SlangCompilerOutput_LL := hf
  simp [outputSwitch, this, Backend.logs, Backend.log]

theorem HandleTranslationUnit_Bitcode (env : Env) (b : Backend) (M0 M : Module)
    (TD : TargetData) (hM : b.mpModule = some M0) (hTD : b.mpTargetData = some TD)
    (hRel : env.ReleaseModule = some M)
    (hf : b.mOutputType = SlangCompilerOutputTy.SlangCompilerOutput_Bitcode) :
    HandleTranslationUnit env b
      = (stateAtSwitch env b M).logs [Event.BCEmitRun (moduleAtSwitch env b M), Event.flush] := by
  rw [HandleTranslationUnit_eq env b M0 M TD hM hTD hRel]
  have : (stateAtSwitch env b M).mOutputType
      = SlangCompilerOutputTy.SlangCompilerOutput_Bitcode := hf
  simp [outputSwitch, this, Backend.logs, Backend.log]

theorem HandleTranslationUnit_Nothing (env : Env) (b : Backend) (M0 M : Module)
    (TD : TargetData) (hM : b.mpModule = some M0) (hTD : b.mpTargetData = some TD)
    (hRel : env.ReleaseModule = some M)
    (hf : b.mOutputType = SlangCompilerOutputTy.SlangCompilerOutput_Nothing) :
    HandleTranslationUnit env b = stateAtSwitch env b M := by
  rw [HandleTranslationUnit_eq env b M0 M TD hM hTD hRel]
  have : (stateAtSwitch env b M).mOutputType
      = SlangCompilerOutputTy.SlangCompilerOutput_Nothing := hf
  simp [outputSwitch, this]

theorem HandleTranslationUnit_CodeGen (env : Env) (b : Backend) (M0 M : Module)
    (TD : TargetData) (hM : b.mpModule = some M0) (hTD : b.mpTargetData = some TD)
    (hRel : env.ReleaseModule = some M) (hf : b.mOutputType.isCodeGen = true) :
    HandleTranslationUnit env b
      = if (CreateCodeGenPasses env (moduleAtSwitch env b M) TD (stateAtSwitch env b M)).1 then
          (CreateCodeGenPasses env (moduleAtSwitch env b M) TD (stateAtSwitch env b M)).2.logs
            ([Event.CodeGenDoInitialization]
              ++ (moduleAtSwitch env b M).definitions.map Event.CodeGenRun
              ++ [Event.CodeGenDoFinalization, Event.flush])
        else
          (CreateCodeGenPasses env (moduleAtSwitch env b M) TD (stateAtSwitch env b M)).2 := by
  rw [HandleTranslationUnit_eq env b M0 M TD hM hTD hRel]
  have hO : (stateAtSwitch env b M).mOutputType = b.mOutputType := rfl
  cases hb : b.mOutputType <;> rw [hb] at hf hO <;>
    simp [SlangCompilerOutputTy.isCodeGen] at hf <;>
    cases hr : (CreateCodeGenPasses env (moduleAtSwitch env b M) TD (stateAtSwitch env b M)).1 <;>
    simp [outputSwitch, hO, hr, runOnDefinitions_eq, Backend.logs, Backend.log,
      Module.definitions]

/-! ## Counting calls before the `switch` -/

theorem countP_pragmaEvents (p : Event → Bool) (name : String) (P : PragmaList)
    (h1 : p (Event.getOrInsertNamedMetadata name) = false)
    (h2 : ∀ node, p (Event.addOperand node) = false) :
    (pragmaEvents name P).countP p = 0 := by
  unfold pragmaEvents
  split
  · rfl
  · rw [List.countP_eq_zero]
    intro e he
    simp only [List.mem_cons, List.mem_map] at he
    rcases he with rfl | ⟨I, _, rfl⟩
    · simp [h1]
    · simp [h2]

theorem countP_map_of_false (p : Event → Bool) (run : Function → Event) (fs : List Function)
    (h : ∀ F, p (run F) = false) : (fs.map run).countP p = 0 := by
  rw [List.countP_eq_zero]
  intro e he
  simp only [List.mem_map] at he
  rcases he with ⟨F, _, rfl⟩
  simp [h]

theorem countP_map_of_true (p : Event → Bool) (run : Function → Event) (fs : List Function)
    (h : ∀ F, p (run F) = true) : (fs.map run).countP p = fs.length := by
  induction fs with
  | nil => rfl
  | cons F rest ih => simp [List.countP_cons, h, ih]

theorem preSwitchEvents_isFlush (env : Env) (b : Backend) (M : Module) :
    (preSwitchEvents env b M).countP Event.isFlush = 0 := by
  simp [preSwitchEvents, List.countP_append, List.countP_cons, Event.isFlush,
    countP_pragmaEvents, countP_map_of_false]

theorem preSwitchEvents_isWrite (env : Env) (b : Backend) (M : Module) :
    (preSwitchEvents env b M).countP Event.isWrite = 0 := by
  simp [preSwitchEvents, List.countP_append, List.countP_cons, Event.isWrite,
    Event.isCodeGenStep, countP_pragmaEvents, countP_map_of_false]

theorem preSwitchEvents_isCodeGen (env : Env) (b : Backend) (M : Module) :
    (preSwitchEvents env b M).countP Event.isCodeGen = 0 := by
  simp [preSwitchEvents, List.countP_append, List.countP_cons, Event.isCodeGen,
    Event.isCodeGenStep, countP_pragmaEvents, countP_map_of_false]

theorem newEvents_stateAtSwitch (env : Env) (b : Backend) (M : Module) :
    newEvents b (stateAtSwitch env b M) = preSwitchEvents env b M :=
  newEvents_of_append _ _ _ rfl

/-! ## C4: the generator releases no module -/

/-- C4. For every translation unit in which `mGen->ReleaseModule()` yields null,
`HandleTranslationUnit` calls the generator twice and nothing else: no pragma
injection, no initialise, run or finalise of the per-function, per-module or
codegen pipeline, no write to and no flush of the output stream, no
diagnostic; it sets `mpModule` to null, every other member staying as it was,
so that the destructor releases no module. -/
theorem C4_released_module_null (env : Env) (b : Backend) (M0 : Module) (TD : TargetData)
    (hM : b.mpModule = some M0) (hTD : b.mpTargetData = some TD)
    (hRel : env.ReleaseModule = none) :
    HandleTranslationUnit env b
      = { b with
          mpModule := none
          trace := b.trace ++ [Event.GenHandleTranslationUnit, Event.GenReleaseModule] } ∧
    (newEvents b (HandleTranslationUnit env b)).countP Event.isPragmaInjection = 0 ∧
    (newEvents b (HandleTranslationUnit env b)).countP Event.isPipelineStep = 0 ∧
    (newEvents b (HandleTranslationUnit env b)).countP Event.isWrite = 0 ∧
    (newEvents b (HandleTranslationUnit env b)).countP Event.isFlush = 0 ∧
    diagsOf (newEvents b (HandleTranslationUnit env b)) = [] ∧
    (HandleTranslationUnit env b).mpModule = none ∧
    (∀ M, Deleted.Module M ∉ (HandleTranslationUnit env b).dtor) := by
  have e : HandleTranslationUnit env b
      = { b with
          mpModule := none
          trace := b.trace ++ [Event.GenHandleTranslationUnit, Event.GenReleaseModule] } := by
    simp [HandleTranslationUnit, hM, hTD, hRel, Backend.log]
  have ev : newEvents b (HandleTranslationUnit env b)
      = [Event.GenHandleTranslationUnit, Event.GenReleaseModule] :=
    newEvents_of_append _ _ _ (by rw [e])
  refine ⟨e, ?_, ?_, ?_, ?_, ?_, ?_, ?_⟩
  · rw [ev]; rfl
  · rw [ev]; rfl
  · rw [ev]; rfl
  · rw [ev]; rfl
  · rw [ev]; rfl
  · rw [e]
  · intro M
    rw [e]
    cases h1 : b.mpTargetData <;> cases h2 : b.mPerFunctionPasses <;>
      cases h3 : b.mPerModulePasses <;> cases h4 : b.mCodeGenPasses <;>
      simp [Backend.dtor, deleteOf, h1, h2, h3, h4]

/-- C4, at the sample backend with a generator that gave up its module. -/
theorem C4_released_module_null_witness :
    (HandleTranslationUnit (sampleEnvWith none)
        (sampleBackend SlangCompilerOutputTy.SlangCompilerOutput_Obj 0 [("a", "b")])).mpModule
      = none :=
  (C4_released_module_null (sampleEnvWith none)
    (sampleBackend SlangCompilerOutputTy.SlangCompilerOutput_Obj 0 [("a", "b")])
    sampleModule { PointerSizeInBits := 32 } rfl rfl rfl).2.2.2.2.2.2.1

/-! ## C5: the flush -/

theorem CreateCodeGenPasses_events (env : Env) (M : Module) (TD : TargetData) (b : Backend) :
    ∃ es, (CreateCodeGenPasses env M TD b).2.trace = b.trace ++ es ∧
      ∀ e ∈ es, e.isSetup = true := by
  cases hf : b.mOutputType.isCodeGen with
  | false => exact ⟨[], by simp [CreateCodeGenPasses_guard env M TD b hf]⟩
  | true =>
    cases hN : b.mCodeGenPasses with
    | some ps => exact ⟨[], by simp [CreateCodeGenPasses_existing env M TD b ps hN]⟩
    | none =>
      cases hT : env.lookupTarget M.targetTriple with
      | error Error =>
        refine ⟨_, by rw [CreateCodeGenPasses_error env M TD b Error hf hN hT], ?_⟩
        simp [Event.isSetup]
      | ok T =>
        rw [CreateCodeGenPasses_ok env M TD b T hf hN hT]
        split
        · refine ⟨configureEvents env b M T
              ++ [Event.Report Diag.err_fe_unable_to_interface_with_target], by simp, ?_⟩
          simp [configureEvents, Event.isSetup]
        · refine ⟨configureEvents env b M T, rfl, ?_⟩
          simp [configureEvents, Event.isSetup]

theorem countP_of_isSetup (p : Event → Bool) (es : List Event)
    (hp : ∀ e, e.isSetup = true → p e = false) (h : ∀ e ∈ es, e.isSetup = true) :
    es.countP p = 0 := by
  rw [List.countP_eq_zero]
  intro e he
  simp [hp e (h e he)]

theorem isFlush_of_isSetup (e : Event) (h : e.isSetup = true) : e.isFlush = false := by
  cases e <;> simp_all [Event.isSetup, Event.isFlush]

/-- C5, as the code has it. In a run of `HandleTranslationUnit` that gets a module
and in which `CreateCodeGenPasses`, where called, reports success: for the
formats assembly, object, IR-text and serialized-binary the output stream is
flushed exactly once, and the flush is the last call of the run; for the
format none the stream is not flushed at all. -/
theorem C5_flush_count (env : Env) (b : Backend) (M0 M : Module) (TD : TargetData)
    (hM : b.mpModule = some M0) (hTD : b.mpTargetData = some TD)
    (hRel : env.ReleaseModule = some M)
    (hOK : (CreateCodeGenPasses env (moduleAtSwitch env b M) TD
              (stateAtSwitch env b M)).1 = true) :
    (newEvents b (HandleTranslationUnit env b)).countP Event.isFlush
      = (if b.mOutputType = SlangCompilerOutputTy.SlangCompilerOutput_Nothing then 0 else 1) ∧
    (b.mOutputType ≠ SlangCompilerOutputTy.SlangCompilerOutput_Nothing →
      (newEvents b (HandleTranslationUnit env b)).getLast? = some Event.flush) := by
  have pre := preSwitchEvents_isFlush env b M
  cases hf : b.mOutputType with
  | SlangCompilerOutput_LL =>
    have ev : newEvents b (HandleTranslationUnit env b)
        = preSwitchEvents env b M ++ [Event.LLEmitRun (moduleAtSwitch env b M), Event.flush] :=
      newEvents_of_append _ _ _ (by
        rw [HandleTranslationUnit_LL env b M0 M TD hM hTD hRel hf]
        simp [stateAtSwitch])
    simp [ev, List.countP_append, pre, List.countP_cons, Event.isFlush]
  | SlangCompilerOutput_Bitcode =>
    have ev : newEvents b (HandleTranslationUnit env b)
        = preSwitchEvents env b M ++ [Event.BCEmitRun (moduleAtSwitch env b M), Event.flush] :=
      newEvents_of_append _ _ _ (by
        rw [HandleTranslationUnit_Bitcode env b M0 M TD hM hTD hRel hf]
        simp [stateAtSwitch])
    simp [ev, List.countP_append, pre, List.countP_cons, Event.isFlush]
  | SlangCompilerOutput_Nothing =>
    have ev : newEvents b (HandleTranslationUnit env b) = preSwitchEvents env b M := by
      rw [HandleTranslationUnit_Nothing env b M0 M TD hM hTD hRel hf]
      exact newEvents_stateAtSwitch env b M
    simp [ev, pre]
  | SlangCompilerOutput_Assembly =>
    obtain ⟨es, hes, hall⟩ := CreateCodeGenPasses_events env (moduleAtSwitch env b M) TD
      (stateAtSwitch env b M)
    have ev : newEvents b (HandleTranslationUnit env b)
        = (preSwitchEvents env b M ++ es ++ [Event.CodeGenDoInitialization]
            ++ (moduleAtSwitch env b M).definitions.map Event.CodeGenRun
            ++ [Event.CodeGenDoFinalization]) ++ [Event.flush] :=
      newEvents_of_append _ _ _ (by
        rw [HandleTranslationUnit_CodeGen env b M0 M TD hM hTD hRel (by rw [hf]; rfl), hOK]
        simp only [if_true, logs_trace, hes]
        simp [stateAtSwitch])
    have hz := countP_of_isSetup Event.isFlush es isFlush_of_isSetup hall
    refine ⟨?_, fun _ => by rw [ev]; exact List.getLast?_concat _⟩
    simp [ev, List.countP_append, pre, hz, List.countP_cons, Event.isFlush,
      countP_map_of_false]
  | SlangCompilerOutput_Obj =>
    obtain ⟨es, hes, hall⟩ := CreateCodeGenPasses_events env (moduleAtSwitch env b M) TD
      (stateAtSwitch env b M)
    have ev : newEvents b (HandleTranslationUnit env b)
        = (preSwitchEvents env b M ++ es ++ [Event.CodeGenDoInitialization]
            ++ (moduleAtSwitch env b M).definitions.map Event.CodeGenRun
            ++ [Event.CodeGenDoFinalization]) ++ [Event.flush] :=
      newEvents_of_append _ _ _ (by
        rw [HandleTranslationUnit_CodeGen env b M0 M TD hM hTD hRel (by rw [hf]; rfl), hOK]
        simp only [if_true, logs_trace, hes]
        simp [stateAtSwitch])
    have hz := countP_of_isSetup Event.isFlush es isFlush_of_isSetup hall
    refine ⟨?_, fun _ => by rw [ev]; exact List.getLast?_concat _⟩
    simp [ev, List.countP_append, pre, hz, List.countP_cons, Event.isFlush,
      countP_map_of_false]

/-- C5 as stated fails for the format none: a run that gets a module and has no
failure anywhere takes the `return` of line 284 and never flushes. -/
theorem C5_counterexample :
    (sampleBackend SlangCompilerOutputTy.SlangCompilerOutput_Nothing 0 []).mOutputType
        = SlangCompilerOutputTy.SlangCompilerOutput_Nothing ∧
      sampleEnv.ReleaseModule = some sampleModule ∧
      ¬ ((newEvents (sampleBackend SlangCompilerOutputTy.SlangCompilerOutput_Nothing 0 [])
            (HandleTranslationUnit sampleEnv
              (sampleBackend SlangCompilerOutputTy.SlangCompilerOutput_Nothing 0 []))).countP
          Event.isFlush = 1) := by
  decide

/-- C5 (amended), at the sample backend emitting an object file. -/
theorem C5_flush_count_witness :
    (newEvents (sampleBackend SlangCompilerOutputTy.SlangCompilerOutput_Obj 0 [])
        (HandleTranslationUnit sampleEnv
          (sampleBackend SlangCompilerOutputTy.SlangCompilerOutput_Obj 0 []))).countP
      Event.isFlush = 1 :=
  (C5_flush_count sampleEnv (sampleBackend SlangCompilerOutputTy.SlangCompilerOutput_Obj 0 [])
    sampleModule sampleModule { PointerSizeInBits := 32 } rfl rfl rfl (by decide)).1

/-! ## C10: the empty translation unit with the format none -/

/-- C10 as stated fails: for the empty module and the format none the per-module
pipeline is still run once (line 251), so the run does not end with zero
pipeline executions. -/
theorem C10_counterexample :
    emptyModule.functions = [] ∧
      (sampleBackendIn emptyEnv SlangCompilerOutputTy.SlangCompilerOutput_Nothing 0 []).mOutputType
        = SlangCompilerOutputTy.SlangCompilerOutput_Nothing ∧
      emptyEnv.ReleaseModule = some emptyModule ∧
      ¬ ((newEvents
            (sampleBackendIn emptyEnv SlangCompilerOutputTy.SlangCompilerOutput_Nothing 0 [])
            (HandleTranslationUnit emptyEnv
              (sampleBackendIn emptyEnv SlangCompilerOutputTy.SlangCompilerOutput_Nothing 0
                []))).countP
          Event.isPipelineRun = 0) := by
  decide

/-- C10, as the code has it. For a translation unit whose module has no function
when the pipelines run, with the output format none (and the per-function and
per-module pipelines constructed), `HandleTranslationUnit` completes with no
run of the per-function pipeline, no run of the codegen pipeline and exactly
one run of the per-module pipeline, which is the only pipeline run; nothing is
written to the output stream and the stream is not flushed. -/
theorem C10_empty_unit_none (env : Env) (b : Backend) (M0 M : Module) (TD : TargetData)
    (hM : b.mpModule = some M0) (hTD : b.mpTargetData = some TD)
    (hRel : env.ReleaseModule = some M)
    (hf : b.mOutputType = SlangCompilerOutputTy.SlangCompilerOutput_Nothing)
    (hEmpty : (moduleAfterHook env b M).functions = []) :
    (newEvents b (HandleTranslationUnit env b)).countP Event.isPerFunctionRun = 0 ∧
    (newEvents b (HandleTranslationUnit env b)).countP Event.isCodeGenRun = 0 ∧
    (newEvents b (HandleTranslationUnit env b)).countP Event.isPerModuleRun = 1 ∧
    (newEvents b (HandleTranslationUnit env b)).countP Event.isPipelineRun = 1 ∧
    (newEvents b (HandleTranslationUnit env b)).countP Event.isWrite = 0 ∧
    (newEvents b (HandleTranslationUnit env b)).countP Event.isFlush = 0 := by
  have ev : newEvents b (HandleTranslationUnit env b) = preSwitchEvents env b M := by
    rw [HandleTranslationUnit_Nothing env b M0 M TD hM hTD hRel hf]
    exact newEvents_stateAtSwitch env b M
  have hd : (moduleAfterHook env b M).definitions = [] := by
    simp [Module.definitions, hEmpty]
  rw [ev]
  refine ⟨?_, ?_, ?_, ?_, preSwitchEvents_isWrite env b M, preSwitchEvents_isFlush env b M⟩ <;>
    simp [preSwitchEvents, hd, List.countP_append, List.countP_cons, countP_pragmaEvents,
      Event.isPerFunctionRun, Event.isCodeGenRun, Event.isPerModuleRun, Event.isPipelineRun]

/-- C10 (amended), at the empty module. -/
theorem C10_empty_unit_none_witness :
    (newEvents (sampleBackendIn emptyEnv SlangCompilerOutputTy.SlangCompilerOutput_Nothing 0 [])
        (HandleTranslationUnit emptyEnv
          (sampleBackendIn emptyEnv SlangCompilerOutputTy.SlangCompilerOutput_Nothing 0
            []))).countP
      Event.isPerModuleRun = 1 :=
  (C10_empty_unit_none emptyEnv
    (sampleBackendIn emptyEnv SlangCompilerOutputTy.SlangCompilerOutput_Nothing 0 [])
    emptyModule emptyModule { PointerSizeInBits := 32 } rfl rfl rfl rfl rfl).2.2.1

/-! ## The code generation branch, outcome by outcome -/

theorem HandleTranslationUnit_CodeGen_error (env : Env) (b : Backend) (M0 M : Module)
    (TD : TargetData) (Error : String)
    (hM : b.mpModule = some M0) (hTD : b.mpTargetData = some TD)
    (hRel : env.ReleaseModule = some M) (hf : b.mOutputType.isCodeGen = true)
    (hN : b.mCodeGenPasses = none)
    (hT : env.lookupTarget (moduleAtSwitch env b M).targetTriple = Except.error Error) :
    HandleTranslationUnit env b
      = { stateAtSwitch env b M with
          mCodeGenPasses := some [Pass.TargetData TD]
          trace := b.trace ++ (preSwitchEvents env b M
            ++ [Event.NewCodeGenPasses, Event.lookupTarget (moduleAtSwitch env b M).targetTriple,
                Event.Report (Diag.err_fe_unable_to_create_target Error)]) } := by
  rw [HandleTranslationUnit_CodeGen env b M0 M TD hM hTD hRel hf,
    CreateCodeGenPasses_error env (moduleAtSwitch env b M) TD (stateAtSwitch env b M) Error
      hf hN hT]
  simp [stateAtSwitch]

theorem HandleTranslationUnit_CodeGen_unpopulated (env : Env) (b : Backend) (M0 M : Module)
    (TD : TargetData) (T : Target)
    (hM : b.mpModule = some M0) (hTD : b.mpTargetData = some TD)
    (hRel : env.ReleaseModule = some M) (hf : b.mOutputType.isCodeGen = true)
    (hN : b.mCodeGenPasses = none)
    (hT : env.lookupTarget (moduleAtSwitch env b M).targetTriple = Except.ok T)
    (hA : env.addPassesToEmitFile (targetMachineFor env b (moduleAtSwitch env b M) T)
            (fileTypeFor b.mOutputType) (optLevelFor b.mCodeGenOpts.OptimizationLevel) = true) :
    HandleTranslationUnit env b
      = { stateAtSwitch env b M with
          llvm := configuredLLVM b TD
          mCodeGenPasses := some [Pass.TargetData TD]
          trace := b.trace ++ (preSwitchEvents env b M
            ++ configureEvents env b (moduleAtSwitch env b M) T
            ++ [Event.Report Diag.err_fe_unable_to_interface_with_target]) } := by
  have hA2 : env.addPassesToEmitFile
      (targetMachineFor env (stateAtSwitch env b M) (moduleAtSwitch env b M) T)
      (fileTypeFor (stateAtSwitch env b M).mOutputType)
      (optLevelFor (stateAtSwitch env b M).mCodeGenOpts.OptimizationLevel) = true := hA
  rw [HandleTranslationUnit_CodeGen env b M0 M TD hM hTD hRel hf,
    CreateCodeGenPasses_ok env (moduleAtSwitch env b M) TD (stateAtSwitch env b M) T
      hf hN hT, hA2]
  simp [stateAtSwitch, configuredLLVM, configureEvents, targetMachineFor]

theorem HandleTranslationUnit_CodeGen_ok (env : Env) (b : Backend) (M0 M : Module)
    (TD : TargetData) (T : Target)
    (hM : b.mpModule = some M0) (hTD : b.mpTargetData = some TD)
    (hRel : env.ReleaseModule = some M) (hf : b.mOutputType.isCodeGen = true)
    (hN : b.mCodeGenPasses = none)
    (hT : env.lookupTarget (moduleAtSwitch env b M).targetTriple = Except.ok T)
    (hA : env.addPassesToEmitFile (targetMachineFor env b (moduleAtSwitch env b M) T)
            (fileTypeFor b.mOutputType) (optLevelFor b.mCodeGenOpts.OptimizationLevel) = false) :
    HandleTranslationUnit env b
      = { stateAtSwitch env b M with
          llvm := configuredLLVM b TD
          mCodeGenPasses := some [Pass.TargetData TD,
            Pass.EmitFile (targetMachineFor env b (moduleAtSwitch env b M) T)
              (fileTypeFor b.mOutputType) (optLevelFor b.mCodeGenOpts.OptimizationLevel)]
          trace := b.trace ++ (preSwitchEvents env b M
            ++ configureEvents env b (moduleAtSwitch env b M) T
            ++ [Event.CodeGenDoInitialization]
            ++ (moduleAtSwitch env b M).definitions.map Event.CodeGenRun
            ++ [Event.CodeGenDoFinalization, Event.flush]) } := by
  have hA2 : env.addPassesToEmitFile
      (targetMachineFor env (stateAtSwitch env b M) (moduleAtSwitch env b M) T)
      (fileTypeFor (stateAtSwitch env b M).mOutputType)
      (optLevelFor (stateAtSwitch env b M).mCodeGenOpts.OptimizationLevel) = false := hA
  rw [HandleTranslationUnit_CodeGen env b M0 M TD hM hTD hRel hf,
    CreateCodeGenPasses_ok env (moduleAtSwitch env b M) TD (stateAtSwitch env b M) T
      hf hN hT, hA2]
  simp [stateAtSwitch, configuredLLVM, configureEvents, targetMachineFor, Backend.logs]

/-! ## C2: one emission branch, and when the codegen pipeline is built -/

theorem preSwitchEvents_isPreparation (env : Env) (b : Backend) (M : Module) :
    ∀ e ∈ preSwitchEvents env b M, e.isPreparation = true := by
  intro e he
  simp only [preSwitchEvents, pragmaEvents, List.mem_append, List.mem_cons, List.mem_map,
    List.mem_singleton] at he
  rcases he with (((h | h) | h) | h) | h
  · rcases h with rfl | rfl | h
    · rfl
    · rfl
    · simp at h
  · split at h
    · simp at h
    · simp only [List.mem_cons, List.mem_map] at h
      rcases h with rfl | ⟨I, _, rfl⟩ <;> rfl
  · rcases h with rfl | rfl | h
    · rfl
    · rfl
    · simp at h
  · rcases h with ⟨F, _, rfl⟩
    rfl
  · rcases h with rfl | rfl | h
    · rfl
    · rfl
    · simp at h

theorem countP_preSwitchEvents (p : Event → Bool) (env : Env) (b : Backend) (M : Module)
    (hp : ∀ e, e.isPreparation = true → p e = false) :
    (preSwitchEvents env b M).countP p = 0 := by
  rw [List.countP_eq_zero]
  intro e he
  simp [hp e (preSwitchEvents_isPreparation env b M e he)]

theorem isLLEmit_of_isPreparation (e : Event) (h : e.isPreparation = true) :
    e.isLLEmit = false := by
  cases e <;> simp_all [Event.isPreparation, Event.isLLEmit]

theorem isBCEmit_of_isPreparation (e : Event) (h : e.isPreparation = true) :
    e.isBCEmit = false := by
  cases e <;> simp_all [Event.isPreparation, Event.isBCEmit]

theorem isNewCodeGenPasses_of_isPreparation (e : Event) (h : e.isPreparation = true) :
    e.isNewCodeGenPasses = false := by
  cases e <;> simp_all [Event.isPreparation, Event.isNewCodeGenPasses]

theorem isCreateTargetMachine_of_isPreparation (e : Event) (h : e.isPreparation = true) :
    e.isCreateTargetMachine = false := by
  cases e <;> simp_all [Event.isPreparation, Event.isCreateTargetMachine]

theorem isCodeGenStep_of_isPreparation (e : Event) (h : e.isPreparation = true) :
    e.isCodeGenStep = false := by
  cases e <;> simp_all [Event.isPreparation, Event.isCodeGenStep]

theorem unitEvents_LL (env : Env) (b : Backend) (M0 M : Module) (TD : TargetData)
    (hM : b.mpModule = some M0) (hTD : b.mpTargetData = some TD)
    (hRel : env.ReleaseModule = some M)
    (hf : b.mOutputType = SlangCompilerOutputTy.SlangCompilerOutput_LL) :
    unitEvents env b
      = preSwitchEvents env b M ++ [Event.LLEmitRun (moduleAtSwitch env b M), Event.flush] :=
  newEvents_of_append _ _ _ (by
    rw [HandleTranslationUnit_LL env b M0 M TD hM hTD hRel hf]
    simp [stateAtSwitch])

theorem unitEvents_Bitcode (env : Env) (b : Backend) (M0 M : Module) (TD : TargetData)
    (hM : b.mpModule = some M0) (hTD : b.mpTargetData = some TD)
    (hRel : env.ReleaseModule = some M)
    (hf : b.mOutputType = SlangCompilerOutputTy.SlangCompilerOutput_Bitcode) :
    unitEvents env b
      = preSwitchEvents env b M ++ [Event.BCEmitRun (moduleAtSwitch env b M), Event.flush] :=
  newEvents_of_append _ _ _ (by
    rw [HandleTranslationUnit_Bitcode env b M0 M TD hM hTD hRel hf]
    simp [stateAtSwitch])

theorem unitEvents_Nothing (env : Env) (b : Backend) (M0 M : Module) (TD : TargetData)
    (hM : b.mpModule = some M0) (hTD : b.mpTargetData = some TD)
    (hRel : env.ReleaseModule = some M)
    (hf : b.mOutputType = SlangCompilerOutputTy.SlangCompilerOutput_Nothing) :
    unitEvents env b = preSwitchEvents env b M := by
  unfold unitEvents
  rw [HandleTranslationUnit_Nothing env b M0 M TD hM hTD hRel hf]
  exact newEvents_stateAtSwitch env b M

theorem unitEvents_CodeGen_error (env : Env) (b : Backend) (M0 M : Module)
    (TD : TargetData) (Error : String)
    (hM : b.mpModule = some M0) (hTD : b.mpTargetData = some TD)
    (hRel : env.ReleaseModule = some M) (hf : b.mOutputType.isCodeGen = true)
    (hN : b.mCodeGenPasses = none)
    (hT : env.lookupTarget (moduleAtSwitch env b M).targetTriple = Except.error Error) :
    unitEvents env b
      = preSwitchEvents env b M
          ++ [Event.NewCodeGenPasses, Event.lookupTarget (moduleAtSwitch env b M).targetTriple,
              Event.Report (Diag.err_fe_unable_to_create_target Error)] :=
  newEvents_of_append _ _ _ (by
    rw [HandleTranslationUnit_CodeGen_error env b M0 M TD Error hM hTD hRel hf hN hT])

theorem unitEvents_CodeGen_unpopulated (env : Env) (b : Backend) (M0 M : Module)
    (TD : TargetData) (T : Target)
    (hM : b.mpModule = some M0) (hTD : b.mpTargetData = some TD)
    (hRel : env.ReleaseModule = some M) (hf : b.mOutputType.isCodeGen = true)
    (hN : b.mCodeGenPasses = none)
    (hT : env.lookupTarget (moduleAtSwitch env b M).targetTriple = Except.ok T)
    (hA : env.addPassesToEmitFile (targetMachineFor env b (moduleAtSwitch env b M) T)
            (fileTypeFor b.mOutputType) (optLevelFor b.mCodeGenOpts.OptimizationLevel) = true) :
    unitEvents env b
      = preSwitchEvents env b M
          ++ configureEvents env b (moduleAtSwitch env b M) T
          ++ [Event.Report Diag.err_fe_unable_to_interface_with_target] :=
  newEvents_of_append _ _ _ (by
    rw [HandleTranslationUnit_CodeGen_unpopulated env b M0 M TD T hM hTD hRel hf hN hT hA])

theorem unitEvents_CodeGen_ok (env : Env) (b : Backend) (M0 M : Module)
    (TD : TargetData) (T : Target)
    (hM : b.mpModule = some M0) (hTD : b.mpTargetData = some TD)
    (hRel : env.ReleaseModule = some M) (hf : b.mOutputType.isCodeGen = true)
    (hN : b.mCodeGenPasses = none)
    (hT : env.lookupTarget (moduleAtSwitch env b M).targetTriple = Except.ok T)
    (hA : env.addPassesToEmitFile (targetMachineFor env b (moduleAtSwitch env b M) T)
            (fileTypeFor b.mOutputType) (optLevelFor b.mCodeGenOpts.OptimizationLevel) = false) :
    unitEvents env b
      = preSwitchEvents env b M
          ++ configureEvents env b (moduleAtSwitch env b M) T
          ++ [Event.CodeGenDoInitialization]
          ++ (moduleAtSwitch env b M).definitions.map Event.CodeGenRun
          ++ [Event.CodeGenDoFinalization, Event.flush] :=
  newEvents_of_append _ _ _ (by
    rw [HandleTranslationUnit_CodeGen_ok env b M0 M TD T hM hTD hRel hf hN hT hA])

/-- C2 as stated fails: with the format object and a module whose triple the
registry does not know, the run gets its module, yet no target machine is
constructed (line 54 returns before line 99). -/
theorem C2_counterexample :
    strangeEnv.ReleaseModule = some strangeModule ∧
      ¬ (0 < (unitEvents strangeEnv
                (sampleBackendIn strangeEnv SlangCompilerOutputTy.SlangCompilerOutput_Obj 0
                  [])).countP Event.isCreateTargetMachine
          ↔ (sampleBackendIn strangeEnv SlangCompilerOutputTy.SlangCompilerOutput_Obj 0
                []).mOutputType = SlangCompilerOutputTy.SlangCompilerOutput_Assembly
            ∨ (sampleBackendIn strangeEnv SlangCompilerOutputTy.SlangCompilerOutput_Obj 0
                []).mOutputType = SlangCompilerOutputTy.SlangCompilerOutput_Obj) := by
  decide

/-- The counts of the emission calls, of the pipeline allocation and of the
target machine creation in a run that gets a module and starts without a
codegen pipeline. -/
theorem emission_branch_counts (env : Env) (b : Backend) (M0 M : Module) (TD : TargetData)
    (hM : b.mpModule = some M0) (hTD : b.mpTargetData = some TD)
    (hRel : env.ReleaseModule = some M) (hN : b.mCodeGenPasses = none) :
    (unitEvents env b).countP Event.isLLEmit
      = (if b.mOutputType = SlangCompilerOutputTy.SlangCompilerOutput_LL then 1 else 0) ∧
    (unitEvents env b).countP Event.isBCEmit
      = (if b.mOutputType = SlangCompilerOutputTy.SlangCompilerOutput_Bitcode then 1 else 0) ∧
    (unitEvents env b).countP Event.isNewCodeGenPasses
      = (if b.mOutputType.isCodeGen then 1 else 0) ∧
    (HandleTranslationUnit env b).mCodeGenPasses.isSome = b.mOutputType.isCodeGen ∧
    (unitEvents env b).countP Event.isCreateTargetMachine
      = (if b.mOutputType.isCodeGen && resolves env (moduleAtSwitch env b M).targetTriple
          then 1 else 0) ∧
    (b.mOutputType.isCodeGen = false →
      (unitEvents env b).countP Event.isCodeGen = 0 ∧
      (HandleTranslationUnit env b).mCodeGenPasses = none) := by
  have p1 := countP_preSwitchEvents Event.isLLEmit env b M isLLEmit_of_isPreparation
  have p2 := countP_preSwitchEvents Event.isBCEmit env b M isBCEmit_of_isPreparation
  have p3 := countP_preSwitchEvents Event.isNewCodeGenPasses env b M
    isNewCodeGenPasses_of_isPreparation
  have p4 := countP_preSwitchEvents Event.isCreateTargetMachine env b M
    isCreateTargetMachine_of_isPreparation
  have p5 := preSwitchEvents_isCodeGen env b M
  have hS : (stateAtSwitch env b M).mCodeGenPasses = none := hN
  by_cases hf : b.mOutputType.isCodeGen = true
  · have hLL : b.mOutputType ≠ SlangCompilerOutputTy.SlangCompilerOutput_LL := by
      intro h; rw [h] at hf; simp [SlangCompilerOutputTy.isCodeGen] at hf
    have hBC : b.mOutputType ≠ SlangCompilerOutputTy.SlangCompilerOutput_Bitcode := by
      intro h; rw [h] at hf; simp [SlangCompilerOutputTy.isCodeGen] at hf
    cases hT : env.lookupTarget (moduleAtSwitch env b M).targetTriple with
    | error Error =>
      rw [unitEvents_CodeGen_error env b M0 M TD Error hM hTD hRel hf hN hT,
        HandleTranslationUnit_CodeGen_error env b M0 M TD Error hM hTD hRel hf hN hT]
      simp [hf, hLL, hBC, resolves, hT, List.countP_append, List.countP_cons, p1, p2, p3, p4,
        Event.isLLEmit, Event.isBCEmit, Event.isNewCodeGenPasses, Event.isCreateTargetMachine]
    | ok T =>
      cases hA : env.addPassesToEmitFile (targetMachineFor env b (moduleAtSwitch env b M) T)
          (fileTypeFor b.mOutputType) (optLevelFor b.mCodeGenOpts.OptimizationLevel) with
      | true =>
        rw [unitEvents_CodeGen_unpopulated env b M0 M TD T hM hTD hRel hf hN hT hA,
          HandleTranslationUnit_CodeGen_unpopulated env b M0 M TD T hM hTD hRel hf hN hT hA]
        simp [hf, hLL, hBC, resolves, hT, List.countP_append, List.countP_cons, p1, p2, p3,
          p4, configureEvents, Event.isLLEmit, Event.isBCEmit, Event.isNewCodeGenPasses,
          Event.isCreateTargetMachine]
      | false =>
        rw [unitEvents_CodeGen_ok env b M0 M TD T hM hTD hRel hf hN hT hA,
          HandleTranslationUnit_CodeGen_ok env b M0 M TD T hM hTD hRel hf hN hT hA]
        simp [hf, hLL, hBC, resolves, hT, List.countP_append, List.countP_cons, p1, p2, p3,
          p4, configureEvents, countP_map_of_false, Event.isLLEmit, Event.isBCEmit,
          Event.isNewCodeGenPasses, Event.isCreateTargetMachine]
  · have hf2 : b.mOutputType.isCodeGen = false := by simpa using hf
    cases hO : b.mOutputType with
    | SlangCompilerOutput_Assembly => rw [hO] at hf; simp [SlangCompilerOutputTy.isCodeGen] at hf
    | SlangCompilerOutput_Obj => rw [hO] at hf; simp [SlangCompilerOutputTy.isCodeGen] at hf
    | SlangCompilerOutput_LL =>
      rw [unitEvents_LL env b M0 M TD hM hTD hRel hO,
        HandleTranslationUnit_LL env b M0 M TD hM hTD hRel hO]
      simp [SlangCompilerOutputTy.isCodeGen, List.countP_append, List.countP_cons, p1, p2, p3,
        p4, p5, Event.isLLEmit, Event.isBCEmit, Event.isNewCodeGenPasses,
        Event.isCreateTargetMachine, Event.isCodeGen, Event.isCodeGenStep, Backend.logs, hS]
    | SlangCompilerOutput_Bitcode =>
      rw [unitEvents_Bitcode env b M0 M TD hM hTD hRel hO,
        HandleTranslationUnit_Bitcode env b M0 M TD hM hTD hRel hO]
      simp [SlangCompilerOutputTy.isCodeGen, List.countP_append, List.countP_cons, p1, p2, p3,
        p4, p5, Event.isLLEmit, Event.isBCEmit, Event.isNewCodeGenPasses,
        Event.isCreateTargetMachine, Event.isCodeGen, Event.isCodeGenStep, Backend.logs, hS]
    | SlangCompilerOutput_Nothing =>
      rw [unitEvents_Nothing env b M0 M TD hM hTD hRel hO,
        HandleTranslationUnit_Nothing env b M0 M TD hM hTD hRel hO]
      simp [SlangCompilerOutputTy.isCodeGen, p1, p2, p3, p4, p5, hS]

/-! ## C6: the triple does not resolve -/

/-- C6 as stated fails: after the failed target lookup the codegen pipeline object
does exist, since line 42 allocates it before the lookup of line 51. -/
theorem C6_counterexample :
    resolves strangeEnv strangeModule.targetTriple = false ∧
      (CreateCodeGenPasses strangeEnv strangeModule { PointerSizeInBits := 32 }
          (sampleBackendIn strangeEnv SlangCompilerOutputTy.SlangCompilerOutput_Obj 0 [])).1
        = false ∧
      ¬ ((CreateCodeGenPasses strangeEnv strangeModule { PointerSizeInBits := 32 }
            (sampleBackendIn strangeEnv SlangCompilerOutputTy.SlangCompilerOutput_Obj 0
              [])).2.mCodeGenPasses = none) ∧
      ¬ ((HandleTranslationUnit strangeEnv
            (sampleBackendIn strangeEnv SlangCompilerOutputTy.SlangCompilerOutput_Obj 0
              [])).mCodeGenPasses = none) := by
  decide

/-- C6, as the code has it. For every run with the format assembly or object that
gets a module, starts without a codegen pipeline and in which the triple of
the module does not resolve: the call of `CreateCodeGenPasses` reports exactly
one diagnostic (unable to create target, with the error text of the registry)
and returns failure; it creates no target machine, does not populate the
pipeline and leaves the LLVM settings alone; the codegen pipeline object it
allocated before the lookup stays in `mCodeGenPasses`, holding the data layout
pass only; `HandleTranslationUnit` then returns at once: no initialise, run or
finalise of the codegen pipeline, nothing written, no flush, and that one
diagnostic is the only one of the run. -/
theorem C6_unresolved_target (env : Env) (b : Backend) (M0 M : Module) (TD : TargetData)
    (Error : String)
    (hM : b.mpModule = some M0) (hTD : b.mpTargetData = some TD)
    (hRel : env.ReleaseModule = some M) (hf : b.mOutputType.isCodeGen = true)
    (hN : b.mCodeGenPasses = none)
    (hT : env.lookupTarget (moduleAtSwitch env b M).targetTriple = Except.error Error) :
    (CreateCodeGenPasses env (moduleAtSwitch env b M) TD (stateAtSwitch env b M)).1 = false ∧
    newEvents (stateAtSwitch env b M)
        (CreateCodeGenPasses env (moduleAtSwitch env b M) TD (stateAtSwitch env b M)).2
      = [Event.NewCodeGenPasses, Event.lookupTarget (moduleAtSwitch env b M).targetTriple,
          Event.Report (Diag.err_fe_unable_to_create_target Error)] ∧
    (CreateCodeGenPasses env (moduleAtSwitch env b M) TD
        (stateAtSwitch env b M)).2.mCodeGenPasses = some [Pass.TargetData TD] ∧
    (CreateCodeGenPasses env (moduleAtSwitch env b M) TD (stateAtSwitch env b M)).2.llvm
      = b.llvm ∧
    HandleTranslationUnit env b
      = (CreateCodeGenPasses env (moduleAtSwitch env b M) TD (stateAtSwitch env b M)).2 ∧
    diagsOf (unitEvents env b) = [Diag.err_fe_unable_to_create_target Error] ∧
    (unitEvents env b).countP Event.isCreateTargetMachine = 0 ∧
    (unitEvents env b).countP Event.isCodeGenStep = 0 ∧
    (unitEvents env b).countP Event.isWrite = 0 ∧
    (unitEvents env b).countP Event.isFlush = 0 := by
  have hc := CreateCodeGenPasses_error env (moduleAtSwitch env b M) TD (stateAtSwitch env b M)
    Error hf hN hT
  have hd : diagsOf (preSwitchEvents env b M) = [] := by
    have : ∀ es : List Event, (∀ e ∈ es, e.isPreparation = true) → diagsOf es = [] := by
      intro es
      induction es with
      | nil => intro _; rfl
      | cons e es ih =>
        intro h
        have he := h e (List.mem_cons_self _ _)
        have hr := ih (fun x hx => h x (List.mem_cons_of_mem _ hx))
        cases e <;> simp_all [Event.isPreparation, diagsOf]
    exact this _ (preSwitchEvents_isPreparation env b M)
  refine ⟨by rw [hc], ?_, by rw [hc], by rw [hc]; rfl, ?_, ?_, ?_, ?_, ?_, ?_⟩
  · exact newEvents_of_append _ _ _ (by rw [hc])
  · rw [HandleTranslationUnit_CodeGen_error env b M0 M TD Error hM hTD hRel hf hN hT, hc]
    simp [stateAtSwitch]
  · rw [unitEvents_CodeGen_error env b M0 M TD Error hM hTD hRel hf hN hT, diagsOf_append, hd]
    rfl
  · rw [unitEvents_CodeGen_error env b M0 M TD Error hM hTD hRel hf hN hT]
    simp [List.countP_append, List.countP_cons, Event.isCreateTargetMachine,
      countP_preSwitchEvents Event.isCreateTargetMachine env b M
        isCreateTargetMachine_of_isPreparation]
  · rw [unitEvents_CodeGen_error env b M0 M TD Error hM hTD hRel hf hN hT]
    simp [List.countP_append, List.countP_cons, Event.isCodeGenStep,
      countP_preSwitchEvents Event.isCodeGenStep env b M isCodeGenStep_of_isPreparation]
  · rw [unitEvents_CodeGen_error env b M0 M TD Error hM hTD hRel hf hN hT]
    simp [List.countP_append, List.countP_cons, Event.isWrite, Event.isCodeGenStep,
      preSwitchEvents_isWrite]
  · rw [unitEvents_CodeGen_error env b M0 M TD Error hM hTD hRel hf hN hT]
    simp [List.countP_append, List.countP_cons, Event.isFlush, preSwitchEvents_isFlush]

/-- C6 (amended), at the module of the unknown triple. -/
theorem C6_unresolved_target_witness :
    diagsOf (unitEvents strangeEnv
        (sampleBackendIn strangeEnv SlangCompilerOutputTy.SlangCompilerOutput_Obj 0 []))
      = [Diag.err_fe_unable_to_create_target "no target for this triple"] :=
  (C6_unresolved_target strangeEnv
    (sampleBackendIn strangeEnv SlangCompilerOutputTy.SlangCompilerOutput_Obj 0 [])
    strangeModule strangeModule { PointerSizeInBits := 32 } "no target for this triple"
    rfl rfl rfl rfl rfl rfl).2.2.2.2.2.1

/-! ## C9: level 0, object output, 32-bit pointers -/

theorem passedFileTypes_append (xs ys : List Event) :
    passedFileTypes (xs ++ ys) = passedFileTypes xs ++ passedFileTypes ys := by
  induction xs with
  | nil => rfl
  | cons e es ih => cases e <;> simp [passedFileTypes, ih]

theorem passedFileTypes_of_isSetup_false (es : List Event)
    (h : ∀ e ∈ es, e.isSetup = false) : passedFileTypes es = [] := by
  induction es with
  | nil => rfl
  | cons e es ih =>
    have he := h e (List.mem_cons_self _ _)
    have hr := ih (fun x hx => h x (List.mem_cons_of_mem _ hx))
    cases e <;> simp_all [Event.isSetup, passedFileTypes]

theorem isSetup_of_isPreparation (e : Event) (h : e.isPreparation = true) :
    e.isSetup = false := by
  cases e <;> simp_all [Event.isPreparation, Event.isSetup]

theorem passedFileTypes_preSwitchEvents (env : Env) (b : Backend) (M : Module) :
    passedFileTypes (preSwitchEvents env b M) = [] :=
  passedFileTypes_of_isSetup_false _
    (fun e he => isSetup_of_isPreparation e (preSwitchEvents_isPreparation env b M e he))

theorem passedFileTypes_map_CodeGenRun (fs : List Function) :
    passedFileTypes (fs.map Event.CodeGenRun) = [] :=
  passedFileTypes_of_isSetup_false _ (by
    intro e he
    simp only [List.mem_map] at he
    rcases he with ⟨F, _, rfl⟩
    rfl)

theorem filter_isCodeGenStep_preSwitchEvents (env : Env) (b : Backend) (M : Module) :
    (preSwitchEvents env b M).filter Event.isCodeGenStep = [] := by
  rw [List.filter_eq_nil_iff]
  intro e he
  simp [isCodeGenStep_of_isPreparation e (preSwitchEvents_isPreparation env b M e he)]

theorem filter_isCodeGenStep_map_CodeGenRun (fs : List Function) :
    (fs.map Event.CodeGenRun).filter Event.isCodeGenStep = fs.map Event.CodeGenRun := by
  rw [List.filter_eq_self]
  intro e he
  simp only [List.mem_map] at he
  rcases he with ⟨F, _, rfl⟩
  rfl

/-- C9 as stated fails: level 0, object output, 32-bit pointers and a triple that
resolves do not make `HandleTranslationUnit` run the codegen pipeline; when
`addPassesToEmitFile` reports failure (lines 122-126) the pipeline is neither
initialised nor run over `foo`. -/
theorem C9_counterexample :
    fooModule.definitions = [{ name := "foo", isDeclaration := false }] ∧
      resolves failingEnv fooModule.targetTriple = true ∧
      failingEnv.TargetDescription.PointerSizeInBits = 32 ∧
      (sampleBackendIn failingEnv SlangCompilerOutputTy.SlangCompilerOutput_Obj 0
          []).mCodeGenOpts.OptimizationLevel = 0 ∧
      ¬ ((unitEvents failingEnv
            (sampleBackendIn failingEnv SlangCompilerOutputTy.SlangCompilerOutput_Obj 0
              [])).countP Event.isCodeGenRun = 1) := by
  decide

/-- C9, as the code has it. For every translation unit with optimization level 0,
output format object, pointer width 32 and a triple that resolves, in a run
that gets a module and starts without a codegen pipeline: `CreateCodeGenPasses`
selects the fast register allocator and the small code model and asks the
target machine for object-file emission; and when the target machine
populates the pipeline without failure, `HandleTranslationUnit` initialises
the codegen pipeline once, runs it exactly once per function of the module
that has a definition, in module order, declarations being skipped, and
finalises it once; for a module whose only defined function is `foo` that is
one codegen run, over `foo`. -/
theorem C9_level0_object (env : Env) (b : Backend) (M0 M : Module) (TD : TargetData)
    (T : Target)
    (hM : b.mpModule = some M0) (hTD : b.mpTargetData = some TD)
    (hW : TD.PointerSizeInBits = 32)
    (hRel : env.ReleaseModule = some M)
    (hf : b.mOutputType = SlangCompilerOutputTy.SlangCompilerOutput_Obj)
    (hL : b.mCodeGenOpts.OptimizationLevel = 0)
    (hN : b.mCodeGenPasses = none)
    (hT : env.lookupTarget (moduleAtSwitch env b M).targetTriple = Except.ok T) :
    (HandleTranslationUnit env b).llvm.RegAllocDefault
      = some RegAllocCtor.createFastRegisterAllocator ∧
    (HandleTranslationUnit env b).llvm.CodeModel = CodeModel.Small ∧
    passedFileTypes (unitEvents env b) = [CodeGenFileType.CGFT_ObjectFile] ∧
    (env.addPassesToEmitFile (targetMachineFor env b (moduleAtSwitch env b M) T)
        CodeGenFileType.CGFT_ObjectFile CodeGenOptLevel.None = false →
      (unitEvents env b).filter Event.isCodeGenStep
        = [Event.CodeGenDoInitialization]
            ++ (moduleAtSwitch env b M).definitions.map Event.CodeGenRun
            ++ [Event.CodeGenDoFinalization] ∧
      (unitEvents env b).countP Event.isCodeGenRun
        = (moduleAtSwitch env b M).definitions.length ∧
      ∀ foo, (moduleAtSwitch env b M).definitions = [foo] →
        (unitEvents env b).filter Event.isCodeGenStep
          = [Event.CodeGenDoInitialization, Event.CodeGenRun foo,
              Event.CodeGenDoFinalization]) := by
  have hcg : b.mOutputType.isCodeGen = true := by rw [hf]; rfl
  have hft : fileTypeFor b.mOutputType = CodeGenFileType.CGFT_ObjectFile := by rw [hf]; rfl
  have hol : optLevelFor b.mCodeGenOpts.OptimizationLevel = CodeGenOptLevel.None := by
    rw [hL]; rfl
  have hp := passedFileTypes_preSwitchEvents env b M
  cases hA : env.addPassesToEmitFile (targetMachineFor env b (moduleAtSwitch env b M) T)
      (fileTypeFor b.mOutputType) (optLevelFor b.mCodeGenOpts.OptimizationLevel) with
  | true =>
    have hA2 := hA
    rw [hft, hol] at hA2
    rw [unitEvents_CodeGen_unpopulated env b M0 M TD T hM hTD hRel hcg hN hT hA,
      HandleTranslationUnit_CodeGen_unpopulated env b M0 M TD T hM hTD hRel hcg hN hT hA]
    refine ⟨?_, ?_, ?_, ?_⟩
    · simp [configuredLLVM, regAllocFor, hL]
    · simp [configuredLLVM, codeModelFor, hW]
    · simp only [passedFileTypes_append, hp]
      simp [configureEvents, passedFileTypes, hft]
    · intro h
      rw [hA2] at h
      cases h
  | false =>
    rw [unitEvents_CodeGen_ok env b M0 M TD T hM hTD hRel hcg hN hT hA,
      HandleTranslationUnit_CodeGen_ok env b M0 M TD T hM hTD hRel hcg hN hT hA]
    have hfilter : (preSwitchEvents env b M
          ++ configureEvents env b (moduleAtSwitch env b M) T
          ++ [Event.CodeGenDoInitialization]
          ++ (moduleAtSwitch env b M).definitions.map Event.CodeGenRun
          ++ [Event.CodeGenDoFinalization, Event.flush]).filter Event.isCodeGenStep
        = [Event.CodeGenDoInitialization]
            ++ (moduleAtSwitch env b M).definitions.map Event.CodeGenRun
            ++ [Event.CodeGenDoFinalization] := by
      simp only [List.filter_append, filter_isCodeGenStep_preSwitchEvents,
        filter_isCodeGenStep_map_CodeGenRun]
      simp [configureEvents, List.filter_cons, Event.isCodeGenStep]
    refine ⟨?_, ?_, ?_, ?_⟩
    · simp [configuredLLVM, regAllocFor, hL]
    · simp [configuredLLVM, codeModelFor, hW]
    · simp only [passedFileTypes_append, hp, passedFileTypes_map_CodeGenRun]
      simp [configureEvents, passedFileTypes, hft]
    · intro _
      refine ⟨hfilter, ?_, ?_⟩
      · simp [List.countP_append, List.countP_cons, configureEvents, Event.isCodeGenRun,
          countP_map_of_true,
          countP_preSwitchEvents Event.isCodeGenRun env b M (by
            intro e h; cases e <;> simp_all [Event.isPreparation, Event.isCodeGenRun])]
      · intro foo hfoo
        rw [hfilter, hfoo]
        rfl

/-- C9 (amended), at the module whose only function is the definition `foo`. -/
theorem C9_level0_object_witness :
    (unitEvents fooEnv
        (sampleBackendIn fooEnv SlangCompilerOutputTy.SlangCompilerOutput_Obj 0 [])).filter
      Event.isCodeGenStep
      = [Event.CodeGenDoInitialization,
          Event.CodeGenRun { name := "foo", isDeclaration := false },
          Event.CodeGenDoFinalization] :=
  ((C9_level0_object fooEnv
    (sampleBackendIn fooEnv SlangCompilerOutputTy.SlangCompilerOutput_Obj 0 [])
    fooModule fooModule { PointerSizeInBits := 32 } { name := "arm" }
    rfl rfl rfl rfl rfl rfl rfl rfl).2.2.2 rfl).2.2
      { name := "foo", isDeclaration := false } (by decide)

/-! ## C7 and C8: optimisation level and code model -/

/-- C7. In every call of `CreateCodeGenPasses` that reaches `addPassesToEmitFile`
(format assembly or object, no pipeline yet, triple resolved), the level handed
over is a three-bucket function of the optimisation level of the options:
level 0 gives none, level 3 gives aggressive, levels 1 and 2 both give the
default tier, and whatever the level the result is one of these three. -/
theorem C7_optimization_level (env : Env) (M : Module) (TD : TargetData) (b : Backend)
    (T : Target) (hf : b.mOutputType.isCodeGen = true) (hN : b.mCodeGenPasses = none)
    (hT : env.lookupTarget M.targetTriple = Except.ok T) :
    (b.mCodeGenOpts.OptimizationLevel = 0 →
      passedOptLevels (newEvents b (CreateCodeGenPasses env M TD b).2)
        = [CodeGenOptLevel.None]) ∧
    (b.mCodeGenOpts.OptimizationLevel = 3 →
      passedOptLevels (newEvents b (CreateCodeGenPasses env M TD b).2)
        = [CodeGenOptLevel.Aggressive]) ∧
    (b.mCodeGenOpts.OptimizationLevel = 1 →
      passedOptLevels (newEvents b (CreateCodeGenPasses env M TD b).2)
        = [CodeGenOptLevel.Default]) ∧
    (b.mCodeGenOpts.OptimizationLevel = 2 →
      passedOptLevels (newEvents b (CreateCodeGenPasses env M TD b).2)
        = [CodeGenOptLevel.Default]) ∧
    (passedOptLevels (newEvents b (CreateCodeGenPasses env M TD b).2)
        = [CodeGenOptLevel.None] ∨
      passedOptLevels (newEvents b (CreateCodeGenPasses env M TD b).2)
        = [CodeGenOptLevel.Default] ∨
      passedOptLevels (newEvents b (CreateCodeGenPasses env M TD b).2)
        = [CodeGenOptLevel.Aggressive]) := by
  have key : passedOptLevels (newEvents b (CreateCodeGenPasses env M TD b).2)
      = [optLevelFor b.mCodeGenOpts.OptimizationLevel] := by
    rw [CreateCodeGenPasses_ok env M TD b T hf hN hT]
    split
    · rw [newEvents_of_append b _ (configureEvents env b M T
          ++ [Event.Report Diag.err_fe_unable_to_interface_with_target]) (by simp)]
      simp [configureEvents, passedOptLevels]
    · rw [newEvents_of_append b _ (configureEvents env b M T) rfl]
      simp [configureEvents, passedOptLevels]
  rw [key]
  refine ⟨?_, ?_, ?_, ?_, ?_⟩
  · intro h; rw [h]; rfl
  · intro h; rw [h]; rfl
  · intro h; rw [h]; rfl
  · intro h; rw [h]; rfl
  · unfold optLevelFor
    split
    · exact Or.inl rfl
    · split
      · exact Or.inr (Or.inr rfl)
      · exact Or.inr (Or.inl rfl)

/-- C7, at the sample backend for the levels 1 and 2. -/
theorem C7_optimization_level_witness :
    passedOptLevels (newEvents (sampleBackend SlangCompilerOutputTy.SlangCompilerOutput_Assembly 1 [])
        (CreateCodeGenPasses sampleEnv sampleModule { PointerSizeInBits := 32 }
          (sampleBackend SlangCompilerOutputTy.SlangCompilerOutput_Assembly 1 [])).2)
      = [CodeGenOptLevel.Default] ∧
    passedOptLevels (newEvents (sampleBackend SlangCompilerOutputTy.SlangCompilerOutput_Assembly 2 [])
        (CreateCodeGenPasses sampleEnv sampleModule { PointerSizeInBits := 32 }
          (sampleBackend SlangCompilerOutputTy.SlangCompilerOutput_Assembly 2 [])).2)
      = [CodeGenOptLevel.Default] :=
  ⟨(C7_optimization_level sampleEnv sampleModule { PointerSizeInBits := 32 }
      (sampleBackend SlangCompilerOutputTy.SlangCompilerOutput_Assembly 1 [])
      { name := "arm" } rfl rfl rfl).2.2.1 rfl,
   (C7_optimization_level sampleEnv sampleModule { PointerSizeInBits := 32 }
      (sampleBackend SlangCompilerOutputTy.SlangCompilerOutput_Assembly 2 [])
      { name := "arm" } rfl rfl rfl).2.2.2.1 rfl⟩

/-- C8. In every call of `CreateCodeGenPasses` that gets to select a code model
(format assembly or object, no pipeline yet, triple resolved), for every
pointer width `w` of the target description the code model selected is medium
if and only if `w > 32` and small otherwise; so 64 gives medium, 32 gives small
and 33 gives medium. -/
theorem C8_code_model (env : Env) (M : Module) (TD : TargetData) (b : Backend)
    (T : Target) (hf : b.mOutputType.isCodeGen = true) (hN : b.mCodeGenPasses = none)
    (hT : env.lookupTarget M.targetTriple = Except.ok T) :
    ((CreateCodeGenPasses env M TD b).2.llvm.CodeModel = CodeModel.Medium
      ↔ TD.PointerSizeInBits > 32) ∧
    ((CreateCodeGenPasses env M TD b).2.llvm.CodeModel = CodeModel.Small
      ↔ ¬ TD.PointerSizeInBits > 32) ∧
    (TD.PointerSizeInBits = 64 →
      (CreateCodeGenPasses env M TD b).2.llvm.CodeModel = CodeModel.Medium) ∧
    (TD.PointerSizeInBits = 32 →
      (CreateCodeGenPasses env M TD b).2.llvm.CodeModel = CodeModel.Small) ∧
    (TD.PointerSizeInBits = 33 →
      (CreateCodeGenPasses env M TD b).2.llvm.CodeModel = CodeModel.Medium) := by
  have key : (CreateCodeGenPasses env M TD b).2.llvm.CodeModel
      = codeModelFor TD.PointerSizeInBits := by
    rw [CreateCodeGenPasses_ok env M TD b T hf hN hT]
    split <;> rfl
  rw [key]
  unfold codeModelFor
  refine ⟨?_, ?_, ?_, ?_, ?_⟩
  · by_cases h : TD.PointerSizeInBits > 32 <;> simp [h]
  · by_cases h : TD.PointerSizeInBits > 32 <;> simp [h]
  · intro h; simp [h]
  · intro h; simp [h]
  · intro h; simp [h]

/-- C8, at the pointer widths 64, 32 and 33. -/
theorem C8_code_model_witness :
    (CreateCodeGenPasses sampleEnv sampleModule { PointerSizeInBits := 64 }
        (sampleBackend SlangCompilerOutputTy.SlangCompilerOutput_Obj 0 [])).2.llvm.CodeModel
      = CodeModel.Medium ∧
    (CreateCodeGenPasses sampleEnv sampleModule { PointerSizeInBits := 32 }
        (sampleBackend SlangCompilerOutputTy.SlangCompilerOutput_Obj 0 [])).2.llvm.CodeModel
      = CodeModel.Small ∧
    (CreateCodeGenPasses sampleEnv sampleModule { PointerSizeInBits := 33 }
        (sampleBackend SlangCompilerOutputTy.SlangCompilerOutput_Obj 0 [])).2.llvm.CodeModel
      = CodeModel.Medium :=
  ⟨(C8_code_model sampleEnv sampleModule { PointerSizeInBits := 64 }
      (sampleBackend SlangCompilerOutputTy.SlangCompilerOutput_Obj 0 [])
      { name := "arm" } rfl rfl rfl).2.2.1 rfl,
   (C8_code_model sampleEnv sampleModule { PointerSizeInBits := 32 }
      (sampleBackend SlangCompilerOutputTy.SlangCompilerOutput_Obj 0 [])
      { name := "arm" } rfl rfl rfl).2.2.2.1 rfl,
   (C8_code_model sampleEnv sampleModule { PointerSizeInBits := 33 }
      (sampleBackend SlangCompilerOutputTy.SlangCompilerOutput_Obj 0 [])
      { name := "arm" } rfl rfl rfl).2.2.2.2 rfl⟩

/-! ## C3: the pragma metadata -/

theorem find_addOperandTo (name : String) (node : MDNode) (l : List NamedMDNode) :
    (addOperandTo name node l).find? (fun t => decide (t.name = name))
      = (l.find? (fun t => decide (t.name = name))).map
          (fun t => { t with operands := t.operands ++ [node] }) := by
  induction l with
  | nil => rfl
  | cons t rest ih =>
    by_cases h : t.name = name
    · simp [addOperandTo, h, List.find?_cons]
    · simp [addOperandTo, h, List.find?_cons, ih]

theorem getNamedMetadata_addOperand (M : Module) (name : String) (node : MDNode) :
    (M.addOperand name node).getNamedMetadata name
      = (M.getNamedMetadata name).map (fun t => { t with operands := t.operands ++ [node] }) :=
  find_addOperandTo name node M.namedMetadata

theorem getNamedMetadata_getOrInsert (M : Module) (name : String) :
    ∃ t, (M.getOrInsertNamedMetadata name).getNamedMetadata name = some t ∧
      t.operands = M.operandsOf name := by
  cases h : M.getNamedMetadata name with
  | some t =>
    refine ⟨t, ?_, ?_⟩
    · simp [Module.getOrInsertNamedMetadata, h]
    · simp [Module.operandsOf, h]
  | none =>
    refine ⟨{ name := name, operands := [] }, ?_, ?_⟩
    · have h2 : M.namedMetadata.find? (fun t => decide (t.name = name)) = none := h
      simp [Module.getOrInsertNamedMetadata, h, Module.getNamedMetadata, List.find?_append, h2]
    · simp [Module.operandsOf, h]

theorem getNamedMetadata_foldl (name : String) (P : PragmaList) (M : Module)
    (t : NamedMDNode) (h : M.getNamedMetadata name = some t) :
    (P.foldl (fun M I => M.addOperand name (pragmaNode I)) M).getNamedMetadata name
      = some { t with operands := t.operands ++ P.map pragmaNode } := by
  induction P generalizing M t with
  | nil => simp [h]
  | cons I rest ih =>
    rw [List.foldl_cons, ih (M.addOperand name (pragmaNode I))
      { t with operands := t.operands ++ [pragmaNode I] }
      (by rw [getNamedMetadata_addOperand, h]; rfl)]
    simp

/-- The pragma table after the injection: what it held before, then one node per
pragma. -/
theorem operandsOf_injectedModule (name : String) (P : PragmaList) (M : Module)
    (hP : P ≠ []) :
    (injectedModule name P M).operandsOf name = M.operandsOf name ++ P.map pragmaNode := by
  obtain ⟨t, ht, hops⟩ := getNamedMetadata_getOrInsert M name
  have hE : P.isEmpty = false := by
    cases P with
    | nil => exact absurd rfl hP
    | cons I rest => rfl
  simp only [injectedModule, hE]
  simp [Module.operandsOf, getNamedMetadata_foldl name P _ t ht, hops]

theorem CreateCodeGenPasses_mpModule (env : Env) (M : Module) (TD : TargetData)
    (b : Backend) : (CreateCodeGenPasses env M TD b).2.mpModule = b.mpModule := by
  cases hf : b.mOutputType.isCodeGen with
  | false => rw [CreateCodeGenPasses_guard env M TD b hf]
  | true =>
    cases hN : b.mCodeGenPasses with
    | some ps => rw [CreateCodeGenPasses_existing env M TD b ps hN]
    | none =>
      cases hT : env.lookupTarget M.targetTriple with
      | error Error => rw [CreateCodeGenPasses_error env M TD b Error hf hN hT]
      | ok T =>
        rw [CreateCodeGenPasses_ok env M TD b T hf hN hT]
        split <;> rfl

theorem outputSwitch_mpModule (env : Env) (M : Module) (TD : TargetData) (b : Backend) :
    (outputSwitch env M TD b).1.mpModule = b.mpModule := by
  have hc := CreateCodeGenPasses_mpModule env M TD b
  cases hO : b.mOutputType <;>
    simp only [outputSwitch, hO] <;>
    first
      | rfl
      | (cases hr : (CreateCodeGenPasses env M TD b).1 <;>
          simp [hr, hc, runOnDefinitions_eq, Backend.logs])

/-- In every run that gets a module, `mpModule` ends up pointing at the released
module after the pragma injection, the hook and the module passes. -/
theorem HandleTranslationUnit_mpModule (env : Env) (b : Backend) (M0 M : Module)
    (TD : TargetData) (hM : b.mpModule = some M0) (hTD : b.mpTargetData = some TD)
    (hRel : env.ReleaseModule = some M) :
    (HandleTranslationUnit env b).mpModule
      = some (env.runModulePasses (env.HandleTranslationUnitEx (injectPragmas env M b).1)) := by
  rw [HandleTranslationUnit_eq env b M0 M TD hM hTD hRel]
  have h := outputSwitch_mpModule env (moduleAtSwitch env b M) TD (stateAtSwitch env b M)
  split
  · rw [h]; rfl
  · rw [log_mpModule, h]; rfl

/-- C3. For every non-empty pragma list `P = [(n1,v1),...,(nk,vk)]` and every
module whose pragma table holds no entry (it is absent or empty), the pragma
injection of `HandleTranslationUnit` leaves the table with exactly `k` entries,
entry `i` being the two strings `ni` then `vi`, in the order of `P` and with
duplicates kept; the calls made are one `getOrInsertNamedMetadata` followed by
one `addOperand` per pragma. For the empty pragma list nothing is done: the
module and the state are unchanged, no table is obtained or created. The
module so injected, passed through the hook and the module passes, is the one
`mpModule` points at when `HandleTranslationUnit` returns. -/
theorem C3_pragma_injection (env : Env) (M : Module) (b : Backend) :
    (b.mPragmas ≠ [] → M.operandsOf env.PragmaMetadataName = [] →
      (injectPragmas env M b).1.operandsOf env.PragmaMetadataName
          = b.mPragmas.map (fun I => [I.1, I.2]) ∧
      ((injectPragmas env M b).1.operandsOf env.PragmaMetadataName).length
          = b.mPragmas.length ∧
      (∀ (i : Nat) (n v : String), b.mPragmas[i]? = some (n, v) →
          ((injectPragmas env M b).1.operandsOf env.PragmaMetadataName)[i]? = some [n, v]) ∧
      newEvents b (injectPragmas env M b).2
          = Event.getOrInsertNamedMetadata env.PragmaMetadataName
              :: b.mPragmas.map (fun I => Event.addOperand [I.1, I.2])) ∧
    (b.mPragmas = [] → injectPragmas env M b = (M, b)) ∧
    (∀ (M0 : Module) (TD : TargetData), b.mpModule = some M0 → b.mpTargetData = some TD →
      env.ReleaseModule = some M →
      (HandleTranslationUnit env b).mpModule
        = some (env.runModulePasses
            (env.HandleTranslationUnitEx (injectPragmas env M b).1))) := by
  refine ⟨?_, ?_, fun M0 TD hM hTD hRel =>
    HandleTranslationUnit_mpModule env b M0 M TD hM hTD hRel⟩
  · intro hP hE
    have key : (injectPragmas env M b).1.operandsOf env.PragmaMetadataName
        = b.mPragmas.map (fun I => [I.1, I.2]) := by
      rw [injectPragmas_fst, operandsOf_injectedModule _ _ _ hP, hE]
      rfl
    refine ⟨key, by rw [key, List.length_map], ?_, ?_⟩
    · intro i n v hi
      rw [key, List.getElem?_map, hi]
      rfl
    · apply newEvents_of_append
      rw [injectPragmas_snd]
      have hE2 : b.mPragmas.isEmpty = false := by
        cases hb : b.mPragmas with
        | nil => exact absurd hb hP
        | cons I rest => rfl
      simp [pragmaEvents, hE2, pragmaNode]
  · intro hP
    simp [injectPragmas, hP]

/-- C3, at the pragma lists `[("arch","7"),("opt","size"),("arch","7")]` and `[]`. -/
theorem C3_pragma_injection_witness :
    (injectPragmas sampleEnv sampleModule
        (sampleBackend SlangCompilerOutputTy.SlangCompilerOutput_LL 0
          [("arch", "7"), ("opt", "size"), ("arch", "7")])).1.operandsOf "#pragma"
      = [["arch", "7"], ["opt", "size"], ["arch", "7"]] ∧
    injectPragmas sampleEnv sampleModule
        (sampleBackend SlangCompilerOutputTy.SlangCompilerOutput_LL 0 [])
      = (sampleModule, sampleBackend SlangCompilerOutputTy.SlangCompilerOutput_LL 0 []) :=
  ⟨((C3_pragma_injection sampleEnv sampleModule
      (sampleBackend SlangCompilerOutputTy.SlangCompilerOutput_LL 0
        [("arch", "7"), ("opt", "size"), ("arch", "7")])).1 (by decide) (by decide)).1,
   (C3_pragma_injection sampleEnv sampleModule
      (sampleBackend SlangCompilerOutputTy.SlangCompilerOutput_LL 0 [])).2.1 rfl⟩

/-! ## C1: sample group -/

/-- C1, at a group with a reserved definition, a reserved forward declaration, a
variable and an ordinary definition. -/
theorem C1_HandleTopLevelDecl_reports_witness :
    diagsOf (newEvents (sampleBackend SlangCompilerOutputTy.SlangCompilerOutput_LL 0 [])
        (HandleTopLevelDecl
          [Decl.Function { name := "rsFoo", isThisDeclarationADefinition := true, locStart := 7 },
           Decl.Function { name := "rsBar", isThisDeclarationADefinition := false, locStart := 9 },
           Decl.Other "rsVar",
           Decl.Function { name := "root", isThisDeclarationADefinition := true, locStart := 12 }]
          (sampleBackend SlangCompilerOutputTy.SlangCompilerOutput_LL 0 [])))
      = [Diag.invalid_rs_name 7 "rsFoo"] ∧
    diagsOf (newEvents (sampleBackend SlangCompilerOutputTy.SlangCompilerOutput_LL 0 [])
        (HandleTopLevelDecl
          [Decl.Function { name := "rsBar", isThisDeclarationADefinition := false, locStart := 9 },
           Decl.Other "rsVar"]
          (sampleBackend SlangCompilerOutputTy.SlangCompilerOutput_LL 0 [])))
      = [] :=
  ⟨(C1_HandleTopLevelDecl_reports _
      (sampleBackend SlangCompilerOutputTy.SlangCompilerOutput_LL 0 [])).1 rfl,
   (C1_HandleTopLevelDecl_reports _
      (sampleBackend SlangCompilerOutputTy.SlangCompilerOutput_LL 0 [])).2.1 rfl (by decide)⟩

/-! ## C2: the branch of each format -/

theorem filter_preSwitchEvents (p : Event → Bool) (env : Env) (b : Backend) (M : Module)
    (hp : ∀ e, e.isPreparation = true → p e = false) :
    (preSwitchEvents env b M).filter p = [] := by
  rw [List.filter_eq_nil_iff]
  intro e he
  simp [hp e (preSwitchEvents_isPreparation env b M e he)]

theorem filter_eq_nil_of_countP (p : Event → Bool) (es : List Event)
    (h : es.countP p = 0) : es.filter p = [] := by
  rw [List.filter_eq_nil_iff]
  exact List.countP_eq_zero.mp h

theorem isCodeGen_of_isCodeGenStep (e : Event) (h : e.isCodeGenStep = true) :
    e.isCodeGen = true := by
  cases e <;> simp_all [Event.isCodeGenStep, Event.isCodeGen]

theorem filter_isCodeGenStep_of_countP (es : List Event)
    (h : es.countP Event.isCodeGen = 0) : es.filter Event.isCodeGenStep = [] := by
  rw [List.filter_eq_nil_iff]
  intro e he hs
  exact List.countP_eq_zero.mp h e he (isCodeGen_of_isCodeGenStep e hs)

theorem passedFileTypes_of_not_codeGen (env : Env) (b : Backend) (M0 M : Module)
    (TD : TargetData) (hM : b.mpModule = some M0) (hTD : b.mpTargetData = some TD)
    (hRel : env.ReleaseModule = some M) (hf : b.mOutputType.isCodeGen = false) :
    passedFileTypes (unitEvents env b) = [] := by
  have hp := passedFileTypes_preSwitchEvents env b M
  cases hO : b.mOutputType with
  | SlangCompilerOutput_Assembly => rw [hO] at hf; simp [SlangCompilerOutputTy.isCodeGen] at hf
  | SlangCompilerOutput_Obj => rw [hO] at hf; simp [SlangCompilerOutputTy.isCodeGen] at hf
  | SlangCompilerOutput_LL =>
    rw [unitEvents_LL env b M0 M TD hM hTD hRel hO, passedFileTypes_append, hp]
    rfl
  | SlangCompilerOutput_Bitcode =>
    rw [unitEvents_Bitcode env b M0 M TD hM hTD hRel hO, passedFileTypes_append, hp]
    rfl
  | SlangCompilerOutput_Nothing =>
    rw [unitEvents_Nothing env b M0 M TD hM hTD hRel hO, hp]

/-- The code generation branch when the triple resolves to the target `T`: the
file type asked for, and the codegen steps with and without a failure of the
pipeline population. -/
theorem codeGen_branch_steps (env : Env) (b : Backend) (M0 M : Module) (TD : TargetData)
    (T : Target) (hM : b.mpModule = some M0) (hTD : b.mpTargetData = some TD)
    (hRel : env.ReleaseModule = some M) (hN : b.mCodeGenPasses = none)
    (hf : b.mOutputType.isCodeGen = true)
    (hT : env.lookupTarget (moduleAtSwitch env b M).targetTriple = Except.ok T) :
    passedFileTypes (unitEvents env b) = [fileTypeFor b.mOutputType] ∧
    (env.addPassesToEmitFile (targetMachineFor env b (moduleAtSwitch env b M) T)
        (fileTypeFor b.mOutputType) (optLevelFor b.mCodeGenOpts.OptimizationLevel) = false →
      (unitEvents env b).filter Event.isCodeGenStep
        = [Event.CodeGenDoInitialization]
            ++ (moduleAtSwitch env b M).definitions.map Event.CodeGenRun
            ++ [Event.CodeGenDoFinalization]) ∧
    (env.addPassesToEmitFile (targetMachineFor env b (moduleAtSwitch env b M) T)
        (fileTypeFor b.mOutputType) (optLevelFor b.mCodeGenOpts.OptimizationLevel) = true →
      (unitEvents env b).filter Event.isCodeGenStep = []) := by
  have hp := passedFileTypes_preSwitchEvents env b M
  cases hA : env.addPassesToEmitFile (targetMachineFor env b (moduleAtSwitch env b M) T)
      (fileTypeFor b.mOutputType) (optLevelFor b.mCodeGenOpts.OptimizationLevel) with
  | true =>
    rw [unitEvents_CodeGen_unpopulated env b M0 M TD T hM hTD hRel hf hN hT hA]
    refine ⟨?_, fun h => Bool.noConfusion h, fun _ => ?_⟩
    · simp only [passedFileTypes_append, hp]
      simp [configureEvents, passedFileTypes]
    · simp only [List.filter_append, filter_isCodeGenStep_preSwitchEvents]
      simp [configureEvents, List.filter_cons, Event.isCodeGenStep]
  | false =>
    rw [unitEvents_CodeGen_ok env b M0 M TD T hM hTD hRel hf hN hT hA]
    refine ⟨?_, fun _ => ?_, fun h => Bool.noConfusion h⟩
    · simp only [passedFileTypes_append, hp, passedFileTypes_map_CodeGenRun]
      simp [configureEvents, passedFileTypes]
    · simp only [List.filter_append, filter_isCodeGenStep_preSwitchEvents,
        filter_isCodeGenStep_map_CodeGenRun]
      simp [configureEvents, List.filter_cons, Event.isCodeGenStep]

/-- C2, as the code has it. For every output format, in a run of
`HandleTranslationUnit` that gets a module and starts without a codegen
pipeline, exactly the branch of that format is executed.
* IR-text: the print-module emitter runs once, on the module, and no other
  emitter or codegen step runs; serialized-binary: likewise with the bitcode
  writer; none: no emitter and no codegen step runs.
* Assembly and object: neither module emitter runs; the codegen pipeline object
  is allocated; when the triple resolves a target machine is created and asked
  for assembly-file emission (format assembly) or object-file emission (format
  object), and when it populates the pipeline without failure the codegen
  pipeline is initialised, run once per defined function in module order and
  finalised; on a failure of the lookup or of the population no codegen step
  runs.
* The codegen pipeline object is allocated (once) if and only if the format is
  assembly or object, and `mCodeGenPasses` is non-null afterwards exactly for
  these two formats; a target machine is created (once) if and only if the
  format is assembly or object and the triple of the module resolves to a
  known target; for IR-text, serialized-binary and none no call of
  `CreateCodeGenPasses` past its format guard occurs and `mCodeGenPasses` stays
  null. -/
theorem C2_emission_branch (env : Env) (b : Backend) (M0 M : Module) (TD : TargetData)
    (hM : b.mpModule = some M0) (hTD : b.mpTargetData = some TD)
    (hRel : env.ReleaseModule = some M) (hN : b.mCodeGenPasses = none) :
    (unitEvents env b).countP Event.isLLEmit
      = (if b.mOutputType = SlangCompilerOutputTy.SlangCompilerOutput_LL then 1 else 0) ∧
    (unitEvents env b).countP Event.isBCEmit
      = (if b.mOutputType = SlangCompilerOutputTy.SlangCompilerOutput_Bitcode then 1 else 0) ∧
    (unitEvents env b).countP Event.isNewCodeGenPasses
      = (if b.mOutputType.isCodeGen then 1 else 0) ∧
    (HandleTranslationUnit env b).mCodeGenPasses.isSome = b.mOutputType.isCodeGen ∧
    (unitEvents env b).countP Event.isCreateTargetMachine
      = (if b.mOutputType.isCodeGen && resolves env (moduleAtSwitch env b M).targetTriple
          then 1 else 0) ∧
    (b.mOutputType.isCodeGen = false →
      (unitEvents env b).countP Event.isCodeGen = 0 ∧
      (HandleTranslationUnit env b).mCodeGenPasses = none) ∧
    (unitEvents env b).filter Event.isLLEmit
      = (if b.mOutputType = SlangCompilerOutputTy.SlangCompilerOutput_LL
          then [Event.LLEmitRun (moduleAtSwitch env b M)] else []) ∧
    (unitEvents env b).filter Event.isBCEmit
      = (if b.mOutputType = SlangCompilerOutputTy.SlangCompilerOutput_Bitcode
          then [Event.BCEmitRun (moduleAtSwitch env b M)] else []) ∧
    (b.mOutputType.isCodeGen = false →
      (unitEvents env b).filter Event.isCodeGenStep = [] ∧
      passedFileTypes (unitEvents env b) = []) ∧
    (∀ Error : String, b.mOutputType.isCodeGen = true →
      env.lookupTarget (moduleAtSwitch env b M).targetTriple = Except.error Error →
      (unitEvents env b).filter Event.isCodeGenStep = [] ∧
      passedFileTypes (unitEvents env b) = []) ∧
    (∀ T : Target,
      b.mOutputType = SlangCompilerOutputTy.SlangCompilerOutput_Assembly →
      env.lookupTarget (moduleAtSwitch env b M).targetTriple = Except.ok T →
      passedFileTypes (unitEvents env b) = [CodeGenFileType.CGFT_AssemblyFile] ∧
      (env.addPassesToEmitFile (targetMachineFor env b (moduleAtSwitch env b M) T)
          CodeGenFileType.CGFT_AssemblyFile
          (optLevelFor b.mCodeGenOpts.OptimizationLevel) = false →
        (unitEvents env b).filter Event.isCodeGenStep
          = [Event.CodeGenDoInitialization]
              ++ (moduleAtSwitch env b M).definitions.map Event.CodeGenRun
              ++ [Event.CodeGenDoFinalization]) ∧
      (env.addPassesToEmitFile (targetMachineFor env b (moduleAtSwitch env b M) T)
          CodeGenFileType.CGFT_AssemblyFile
          (optLevelFor b.mCodeGenOpts.OptimizationLevel) = true →
        (unitEvents env b).filter Event.isCodeGenStep = [])) ∧
    (∀ T : Target,
      b.mOutputType = SlangCompilerOutputTy.SlangCompilerOutput_Obj →
      env.lookupTarget (moduleAtSwitch env b M).targetTriple = Except.ok T →
      passedFileTypes (unitEvents env b) = [CodeGenFileType.CGFT_ObjectFile] ∧
      (env.addPassesToEmitFile (targetMachineFor env b (moduleAtSwitch env b M) T)
          CodeGenFileType.CGFT_ObjectFile
          (optLevelFor b.mCodeGenOpts.OptimizationLevel) = false →
        (unitEvents env b).filter Event.isCodeGenStep
          = [Event.CodeGenDoInitialization]
              ++ (moduleAtSwitch env b M).definitions.map Event.CodeGenRun
              ++ [Event.CodeGenDoFinalization]) ∧
      (env.addPassesToEmitFile (targetMachineFor env b (moduleAtSwitch env b M) T)
          CodeGenFileType.CGFT_ObjectFile
          (optLevelFor b.mCodeGenOpts.OptimizationLevel) = true →
        (unitEvents env b).filter Event.isCodeGenStep = [])) := by
  obtain ⟨c1, c2, c3, c4, c5, c6⟩ := emission_branch_counts env b M0 M TD hM hTD hRel hN
  refine ⟨c1, c2, c3, c4, c5, c6, ?_, ?_, ?_, ?_, ?_, ?_⟩
  · by_cases hLL : b.mOutputType = SlangCompilerOutputTy.SlangCompilerOutput_LL
    · rw [unitEvents_LL env b M0 M TD hM hTD hRel hLL, if_pos hLL, List.filter_append,
        filter_preSwitchEvents _ env b M isLLEmit_of_isPreparation]
      rfl
    · rw [if_neg hLL]
      exact filter_eq_nil_of_countP _ _ (by rw [c1, if_neg hLL])
  · by_cases hBC : b.mOutputType = SlangCompilerOutputTy.SlangCompilerOutput_Bitcode
    · rw [unitEvents_Bitcode env b M0 M TD hM hTD hRel hBC, if_pos hBC, List.filter_append,
        filter_preSwitchEvents _ env b M isBCEmit_of_isPreparation]
      rfl
    · rw [if_neg hBC]
      exact filter_eq_nil_of_countP _ _ (by rw [c2, if_neg hBC])
  · intro hf
    exact ⟨filter_isCodeGenStep_of_countP _ (c6 hf).1,
      passedFileTypes_of_not_codeGen env b M0 M TD hM hTD hRel hf⟩
  · intro Error hf hT
    rw [unitEvents_CodeGen_error env b M0 M TD Error hM hTD hRel hf hN hT]
    constructor
    · rw [List.filter_append, filter_isCodeGenStep_preSwitchEvents]
      rfl
    · rw [passedFileTypes_append, passedFileTypes_preSwitchEvents]
      rfl
  · intro T hf hT
    have hcg : b.mOutputType.isCodeGen = true := by rw [hf]; rfl
    have hft : fileTypeFor b.mOutputType = CodeGenFileType.CGFT_AssemblyFile := by
      rw [hf]; rfl
    have h := codeGen_branch_steps env b M0 M TD T hM hTD hRel hN hcg hT
    rw [hft] at h
    exact h
  · intro T hf hT
    have hcg : b.mOutputType.isCodeGen = true := by rw [hf]; rfl
    have hft : fileTypeFor b.mOutputType = CodeGenFileType.CGFT_ObjectFile := by
      rw [hf]; rfl
    have h := codeGen_branch_steps env b M0 M TD T hM hTD hRel hN hcg hT
    rw [hft] at h
    exact h

/-- C2 (amended), at the sample backend for the formats IR-text, object and
assembly. -/
theorem C2_emission_branch_witness :
    ((unitEvents sampleEnv
        (sampleBackend SlangCompilerOutputTy.SlangCompilerOutput_LL 2 [])).filter
      Event.isLLEmit = [Event.LLEmitRun sampleModule] ∧
     (HandleTranslationUnit sampleEnv
        (sampleBackend SlangCompilerOutputTy.SlangCompilerOutput_LL 2 [])).mCodeGenPasses
      = none) ∧
    (passedFileTypes (unitEvents fooEnv
        (sampleBackendIn fooEnv SlangCompilerOutputTy.SlangCompilerOutput_Obj 2 []))
      = [CodeGenFileType.CGFT_ObjectFile] ∧
     (unitEvents fooEnv
        (sampleBackendIn fooEnv SlangCompilerOutputTy.SlangCompilerOutput_Obj 2 [])).filter
      Event.isCodeGenStep
      = [Event.CodeGenDoInitialization,
          Event.CodeGenRun { name := "foo", isDeclaration := false },
          Event.CodeGenDoFinalization]) ∧
    (passedFileTypes (unitEvents fooEnv
        (sampleBackendIn fooEnv SlangCompilerOutputTy.SlangCompilerOutput_Assembly 2 []))
      = [CodeGenFileType.CGFT_AssemblyFile] ∧
     (unitEvents fooEnv
        (sampleBackendIn fooEnv SlangCompilerOutputTy.SlangCompilerOutput_Assembly 2
          [])).filter Event.isCodeGenStep
      = [Event.CodeGenDoInitialization,
          Event.CodeGenRun { name := "foo", isDeclaration := false },
          Event.CodeGenDoFinalization]) := by
  have hLL := C2_emission_branch sampleEnv
    (sampleBackend SlangCompilerOutputTy.SlangCompilerOutput_LL 2 [])
    sampleModule sampleModule { PointerSizeInBits := 32 } rfl rfl rfl rfl
  have hObj := (C2_emission_branch fooEnv
    (sampleBackendIn fooEnv SlangCompilerOutputTy.SlangCompilerOutput_Obj 2 [])
    fooModule fooModule { PointerSizeInBits := 32 } rfl rfl rfl rfl).2.2.2.2.2.2.2.2.2.2.2
      { name := "arm" } rfl rfl
  have hAsm := (C2_emission_branch fooEnv
    (sampleBackendIn fooEnv SlangCompilerOutputTy.SlangCompilerOutput_Assembly 2 [])
    fooModule fooModule { PointerSizeInBits := 32 } rfl rfl rfl rfl).2.2.2.2.2.2.2.2.2.2.1
      { name := "arm" } rfl rfl
  exact ⟨⟨hLL.2.2.2.2.2.2.1, (hLL.2.2.2.2.2.1 rfl).2⟩,
    ⟨hObj.1, hObj.2.1 rfl⟩, ⟨hAsm.1, hAsm.2.1 rfl⟩⟩

end slang
